import Mathlib

set_option maxRecDepth 8192

/-!
Shallow embedding of the mm1-level-parser crate (src/level.rs, src/objects.rs,
src/sound_effects.rs, src/thumbnail.rs, src/course.rs, src/lib.rs).

Conventions of the embedding:
* Machine bytes are `Nat` values; multi-byte big-endian reads/writes are spelled
  out with `/ % 256` arithmetic, matching `to_be_bytes` / `from_be_bytes`.
* Rust `Result` values become `Except`; a Rust panic (an out-of-bounds slice
  index on caller-supplied data) is modelled as `Option.none` wrapped around the
  function's Rust result type, since a panic is not a returned error value.
* `std::io::Cursor` writes over the fixed `[u8; 0x15000]` buffer are modelled by
  `writeAll` (absolute position, fails when the write runs past the end of the
  buffer, exactly like `Write::write_all` on a full `Cursor<&mut [u8]>`).
* The external crates the source calls are embedded by their documented
  behaviour: `crc32fast::hash` is the standard reflected CRC-32 (polynomial
  0xEDB88320, init and final xor 0xFFFFFFFF); `ucs2::encode`/`ucs2::decode`
  convert one code unit per BMP code point; `String::from_utf8` is a validating
  UTF-8 decoder; `chrono` calendar validation follows the proleptic Gregorian
  calendar (the year range reaching `from_ymd_opt` here is 0..=65535, inside
  chrono's representable range, so no extra year-range check is needed).
-/

namespace MM1

/-! ## Byte-level primitives -/

/-- Big-endian 2-byte image of a `u16` value (`u16::to_be_bytes`). -/
def natToBE2 (n : Nat) : List Nat := [n / 0x100 % 256, n % 256]

/-- Big-endian 4-byte image of a `u32` value (`u32::to_be_bytes`). -/
def natToBE4 (n : Nat) : List Nat :=
  [n / 0x1000000 % 256, n / 0x10000 % 256, n / 0x100 % 256, n % 256]

/-- Big-endian 8-byte image of a `u64` value (`u64::to_be_bytes`). -/
def natToBE8 (n : Nat) : List Nat :=
  [n / 0x100000000000000 % 256, n / 0x1000000000000 % 256, n / 0x10000000000 % 256,
   n / 0x100000000 % 256, n / 0x1000000 % 256, n / 0x10000 % 256, n / 0x100 % 256, n % 256]

/-- Big-endian `u16::from_be_bytes` read at an offset of a byte buffer. -/
def readBE2 (b : List Nat) (off : Nat) : Nat :=
  b.getD off 0 * 0x100 + b.getD (off + 1) 0

/-- Big-endian `u32::from_be_bytes` read at an offset of a byte buffer. -/
def readBE4 (b : List Nat) (off : Nat) : Nat :=
  ((b.getD off 0 * 0x100 + b.getD (off + 1) 0) * 0x100 + b.getD (off + 2) 0) * 0x100 +
    b.getD (off + 3) 0

/-- Big-endian `u64::from_be_bytes` read at an offset of a byte buffer. -/
def readBE8 (b : List Nat) (off : Nat) : Nat :=
  readBE4 b off * 0x100000000 + readBE4 b (off + 4)

/-- Two's-complement byte of a signed integer (`as u8` on `i8`-ranged data). -/
def intByte (v : Int) : Nat := (v % 256).toNat

/-- Two's-complement big-endian 2-byte image of a signed 16-bit integer. -/
def intToBE2 (v : Int) : List Nat := natToBE2 (v % 65536).toNat

/-- Signed interpretation of one byte (`i8::from_be_bytes`). -/
def byteToInt (b : Nat) : Int :=
  if b % 256 < 128 then (b % 256 : Nat) else (b % 256 : Nat) - 256

/-- Signed big-endian interpretation of two bytes (`i16::from_be_bytes`). -/
def be2ToInt (b : List Nat) (off : Nat) : Int :=
  if readBE2 b off < 0x8000 then (readBE2 b off : Nat) else (readBE2 b off : Nat) - 0x10000

/-- The slice `&src[off..off+len]` of a fixed-size buffer, as positional reads.
At every call site of the embedding `off + len` is within the buffer, so the
default value 0 is never produced. -/
def sliceD (b : List Nat) (off len : Nat) : List Nat :=
  (List.range len).map fun j => b.getD (off + j) 0

/-- Total overlay write used to describe a successful cursor write:
replace `d.length` bytes of `b` starting at position `p`. -/
def writeRaw (b : List Nat) (p : Nat) (d : List Nat) : List Nat :=
  b.take p ++ d ++ b.drop (p + d.length)

/-- `Write::write_all` on a `Cursor<&mut [u8]>` positioned at `p`: succeeds and
overlays the data when it fits, otherwise the source maps the short-write error
to `PackingError::InternalError` (the partially-written buffer is discarded). -/
inductive PackingError where
  | invalidValue
  | internalError
deriving DecidableEq

def writeAll (b : List Nat) (p : Nat) (d : List Nat) :
    Except PackingError (List Nat) :=
  if p + d.length ≤ b.length then .ok (writeRaw b p d) else .error .internalError

/-- Consecutive `write_all` calls (the object / sound-effect loops): the cursor
advances by the length of each chunk. -/
def writeSeq (b : List Nat) (p : Nat) : List (List Nat) → Except PackingError (List Nat)
  | [] => .ok b
  | d :: ds =>
    match writeAll b p d with
    | .error e => .error e
    | .ok b2 => writeSeq b2 (p + d.length) ds

/-- Total counterpart of `writeSeq` for describing its successful result. -/
def writeChunksRaw (b : List Nat) (p : Nat) : List (List Nat) → List Nat
  | [] => b
  | d :: ds => writeChunksRaw (writeRaw b p d) (p + d.length) ds

/-- The zero-initialised `[0u8; 0x15000]` buffer `Level::pack` starts from
(kept as a named constant so proofs never unfold the 86016-element literal). -/
def zeroBuf : List Nat := List.replicate 0x15000 0

/-- `Vec::resize(n, 0)`: pad with zeros up to `n`, or truncate beyond it. -/
def resize (l : List Nat) (n : Nat) : List Nat :=
  if l.length ≤ n then l ++ List.replicate (n - l.length) 0 else l.take n

/-! ## CRC-32 (the `crc32fast::hash` the source calls: standard reflected
CRC-32, polynomial 0xEDB88320, initial value and final xor 0xFFFFFFFF). -/

/-- One bit step of the reflected CRC-32 algorithm. -/
def crc32Bit (c : Nat) : Nat :=
  if c % 2 = 1 then Nat.xor (c / 2) 0xEDB88320 else c / 2

/-- One byte step: xor the byte into the low 8 bits, then 8 bit steps. -/
def crc32Byte (c b : Nat) : Nat :=
  crc32Bit (crc32Bit (crc32Bit (crc32Bit
    (crc32Bit (crc32Bit (crc32Bit (crc32Bit (Nat.xor c (b % 256)))))))))

/-- Standard CRC-32 of a byte sequence. -/
def crc32 (data : List Nat) : Nat :=
  Nat.xor (data.foldl crc32Byte 0xFFFFFFFF) 0xFFFFFFFF

/-! ## Library error type (src/lib.rs) and archive member names (src/course.rs) -/

inductive CourseData where
  | CourseData
  | CourseDataSub
  | Thumbnail0
  | Thumbnail1
deriving DecidableEq

inductive Error where
  | FileTooLarge
  | InvalidData
  | MissingCourseData (c : CourseData)
deriving DecidableEq

/-! ## Enumerations of src/level.rs -/

inductive GameMode where
  | SuperMarioBros
  | Mario3
  | MarioWorld
  | NewSuperMarioBrosU
deriving DecidableEq

/-- `GameMode::pack`: the fixed 2-byte ASCII tag (always succeeds). -/
def GameMode.pack : GameMode → List Nat
  | .SuperMarioBros => [77, 49]
  | .Mario3 => [77, 51]
  | .MarioWorld => [77, 87]
  | .NewSuperMarioBrosU => [87, 85]

/-- `GameMode::unpack`: recognises exactly the four tags. -/
def GameMode.unpack (b : List Nat) : Except PackingError GameMode :=
  match b with
  | [77, 49] => .ok .SuperMarioBros
  | [77, 51] => .ok .Mario3
  | [77, 87] => .ok .MarioWorld
  | [87, 85] => .ok .NewSuperMarioBrosU
  | _ => .error .invalidValue

inductive CourseTheme where
  | Overworld
  | Underground
  | Castle
  | Airship
  | Water
  | GhostHouse
deriving DecidableEq

/-- The `#[repr(u8)]` discriminant written by `self.course_theme as u8`. -/
def CourseTheme.toByte : CourseTheme → Nat
  | .Overworld => 0
  | .Underground => 1
  | .Castle => 2
  | .Airship => 3
  | .Water => 4
  | .GhostHouse => 5

/-- `CourseTheme::try_from_primitive`: ordinals 0..=5, else `InvalidValue`. -/
def CourseTheme.tryFrom (n : Nat) : Except PackingError CourseTheme :=
  match n with
  | 0 => .ok .Overworld
  | 1 => .ok .Underground
  | 2 => .ok .Castle
  | 3 => .ok .Airship
  | 4 => .ok .Water
  | 5 => .ok .GhostHouse
  | _ => .error .invalidValue

inductive AutoScroll where
  | None
  | Slow
  | Medium
  | Fast
deriving DecidableEq

/-- The `#[repr(u8)]` discriminant written by `self.auto_scroll as u8`. -/
def AutoScroll.toByte : AutoScroll → Nat
  | .None => 0
  | .Slow => 1
  | .Medium => 2
  | .Fast => 3

/-- `AutoScroll::try_from_primitive`: ordinals 0..=3, else `InvalidValue`. -/
def AutoScroll.tryFrom (n : Nat) : Except PackingError AutoScroll :=
  match n with
  | 0 => .ok .None
  | 1 => .ok .Slow
  | 2 => .ok .Medium
  | 3 => .ok .Fast
  | _ => .error .invalidValue

/-! ## Text codecs: the `ucs2` crate and `String::from_utf8` -/

/-- `ucs2::encode` into the zero-initialised `[u16; 0x21]` buffer of
`Level::pack`: one code unit per Basic-Multilingual-Plane code point, error on
a supplementary-plane character (`Error::MultiByte`) or on more than 33 code
points (`Error::BufferOverflow`); either error is mapped by the caller to
`PackingError::InternalError`. On success the buffer holds the code units
followed by the untouched zero fill. -/
def ucs2Encode33 (cps : List Nat) : Except PackingError (List Nat) :=
  if cps.all (fun c => c < 0x10000) && decide (cps.length ≤ 33) then
    .ok (cps ++ List.replicate (33 - cps.length) 0)
  else .error .internalError

/-- UTF-8 image of one UCS-2 code unit, as produced by `ucs2::decode`
(1 to 3 bytes; a surrogate code unit yields an invalid-UTF-8 triple). -/
def ucs2DecodeUnit (u : Nat) : List Nat :=
  if u < 0x80 then [u]
  else if u < 0x800 then [0xC0 + u / 0x40, 0x80 + u % 0x40]
  else [0xE0 + u / 0x1000, 0x80 + u / 0x40 % 0x40, 0x80 + u % 0x40]

/-- Concatenated UTF-8 images of a list of code units. -/
def ucs2DecodeAll : List Nat → List Nat
  | [] => []
  | u :: us => ucs2DecodeUnit u ++ ucs2DecodeAll us

/-- `ucs2::decode` into the `[u8; 0x21 * 4]` buffer of `Level::unpack`:
converts every code unit (it does not stop at a zero unit) and fails only if
the output would overflow the 132-byte buffer. -/
def ucs2DecodeBytes (units : List Nat) : Except PackingError (List Nat) :=
  let flat := ucs2DecodeAll units
  if flat.length ≤ 0x21 * 4 then .ok flat else .error .internalError

/-- Continuation-byte test of the UTF-8 validator (`0x80..=0xBF`). -/
def utf8Cont (b : Nat) : Bool := decide (0x80 ≤ b) && decide (b < 0xC0)

/-- First-continuation range for a 3-byte lead (excludes overlongs after `0xE0`
and surrogates after `0xED`), as in Rust's `str` validation. -/
def utf8Guard3 (b0 b1 : Nat) : Bool :=
  if b0 = 0xE0 then decide (0xA0 ≤ b1) && decide (b1 < 0xC0)
  else if b0 = 0xED then decide (0x80 ≤ b1) && decide (b1 < 0xA0)
  else utf8Cont b1

/-- First-continuation range for a 4-byte lead (excludes overlongs after `0xF0`
and values above `0x10FFFF` after `0xF4`). -/
def utf8Guard4 (b0 b1 : Nat) : Bool :=
  if b0 = 0xF0 then decide (0x90 ≤ b1) && decide (b1 < 0xC0)
  else if b0 = 0xF4 then decide (0x80 ≤ b1) && decide (b1 < 0x90)
  else utf8Cont b1

/-- One step of the validating UTF-8 decoder (`String::from_utf8` checks the
bytes one code point at a time): decode the first code point and return it with
the remaining bytes, or fail on a bare continuation byte, an overlong form, a
surrogate or a code point above 0x10FFFF, exactly like Rust's `str`
validation. -/
def utf8DecodeOne : List Nat → Option (Nat × List Nat)
  | [] => none
  | b0 :: rest =>
    if b0 < 0x80 then some (b0, rest)
    else if b0 < 0xC2 then none
    else if b0 < 0xE0 then
      match rest with
      | b1 :: rest1 =>
        if utf8Cont b1 then some ((b0 - 0xC0) * 0x40 + (b1 - 0x80), rest1) else none
      | [] => none
    else if b0 < 0xF0 then
      match rest with
      | b1 :: b2 :: rest2 =>
        if utf8Guard3 b0 b1 && utf8Cont b2 then
          some ((b0 - 0xE0) * 0x1000 + (b1 - 0x80) * 0x40 + (b2 - 0x80), rest2)
        else none
      | _ => none
    else if b0 < 0xF5 then
      match rest with
      | b1 :: b2 :: b3 :: rest3 =>
        if utf8Guard4 b0 b1 && utf8Cont b2 && utf8Cont b3 then
          some ((b0 - 0xF0) * 0x40000 + (b1 - 0x80) * 0x1000 +
                (b2 - 0x80) * 0x40 + (b3 - 0x80), rest3)
        else none
      | _ => none
    else none

/-- The full validating UTF-8 decoder: all code points, or `none` as soon as
one step rejects. -/
def utf8Decode (bs : List Nat) : Option (List Nat) :=
  match bs with
  | [] => some []
  | b0 :: rest =>
    match hone : utf8DecodeOne (b0 :: rest) with
    | none => none
    | some (c, rest2) =>
      match utf8Decode rest2 with
      | none => none
      | some cs => some (c :: cs)
termination_by bs.length
decreasing_by
  simp only [utf8DecodeOne.eq_def] at hone
  repeat' split at hone
  all_goals
    first
      | exact Option.noConfusion hone
      | (simp only [Option.some.injEq, Prod.mk.injEq] at hone
         obtain ⟨h1, h2⟩ := hone
         subst_vars
         simp only [List.length_cons]
         omega)

/-- The low-byte-then-zero pair layout `Level::pack` actually writes for the
name field: `name_bytes[2i] = name[i] as u8; name_bytes[2i+1] = 0`. -/
def nameBytes : List Nat → List Nat
  | [] => []
  | u :: us => u % 256 :: 0 :: nameBytes us

/-! ## Calendar validation (`chrono::NaiveDate::from_ymd_opt`,
`chrono::NaiveTime::from_hms_opt`), proleptic Gregorian -/

def isLeapYear (y : Int) : Bool :=
  decide (y % 4 = 0) && (!decide (y % 100 = 0) || decide (y % 400 = 0))

def daysInMonth (y : Int) (m : Nat) : Nat :=
  if m = 1 ∨ m = 3 ∨ m = 5 ∨ m = 7 ∨ m = 8 ∨ m = 10 ∨ m = 12 then 31
  else if m = 4 ∨ m = 6 ∨ m = 9 ∨ m = 11 then 30
  else if isLeapYear y then 29 else 28

def ymdValid (y : Int) (m d : Nat) : Bool :=
  decide (1 ≤ m) && decide (m ≤ 12) && decide (1 ≤ d) && decide (d ≤ daysInMonth y m)

def hmsValid (h min : Nat) : Bool :=
  decide (h < 24) && decide (min < 60)

/-! ## Data model -/

/-- The fields of `chrono::NaiveDateTime` that the codec touches. `second`
stands for the sub-minute state of the timestamp (chrono also has nanoseconds,
which behave identically here: never serialised, zeroed by `unpack`). -/
structure CreationTime where
  year : Int
  month : Nat
  day : Nat
  hour : Nat
  minute : Nat
  second : Nat
deriving DecidableEq

/-- `objects.rs`: one placed object (32-byte wire record). -/
structure Object where
  x_position : Nat
  z_position : Nat
  y_position : Int
  width : Int
  height : Int
  object_flags : Nat
  child_object_flags : Nat
  extended_object_data : Nat
  object_type : Int
  child_object_type : Int
  link_id : Int
  effect_index : Int
  transformation_id : Int
  child_object_transformation_id : Int
deriving DecidableEq

/-- `Object`'s packed_struct encode: big-endian, two's complement for the
signed fields, 32 bytes (never fails). -/
def Object.pack (o : Object) : List Nat :=
  natToBE4 o.x_position ++ natToBE4 o.z_position ++ intToBE2 o.y_position ++
  [intByte o.width, intByte o.height] ++ natToBE4 o.object_flags ++
  natToBE4 o.child_object_flags ++ natToBE4 o.extended_object_data ++
  [intByte o.object_type, intByte o.child_object_type] ++ intToBE2 o.link_id ++
  intToBE2 o.effect_index ++
  [intByte o.transformation_id, intByte o.child_object_transformation_id]

/-- `Object`'s packed_struct decode from its 32-byte slice (never fails). -/
def Object.unpack (b : List Nat) : Object where
  x_position := readBE4 b 0x0
  z_position := readBE4 b 0x4
  y_position := be2ToInt b 0x8
  width := byteToInt (b.getD 0xA 0)
  height := byteToInt (b.getD 0xB 0)
  object_flags := readBE4 b 0xC
  child_object_flags := readBE4 b 0x10
  extended_object_data := readBE4 b 0x14
  object_type := byteToInt (b.getD 0x18 0)
  child_object_type := byteToInt (b.getD 0x19 0)
  link_id := be2ToInt b 0x1A
  effect_index := be2ToInt b 0x1C
  transformation_id := byteToInt (b.getD 0x1E 0)
  child_object_transformation_id := byteToInt (b.getD 0x1F 0)

/-- `sound_effects.rs`: the struct holds a single `u32` field `unknown` in an
8-byte (`size_bytes = 8`) record; the trailing 4 bytes are padding. -/
structure SoundEffect where
  unknown : Nat
deriving DecidableEq

/-- packed_struct encode of `SoundEffect`: the `u32` at bytes 0..4, padding
zeroed to the declared 8-byte size. -/
def SoundEffect.pack (s : SoundEffect) : List Nat :=
  natToBE4 s.unknown ++ [0, 0, 0, 0]

/-- packed_struct decode of `SoundEffect` from its 8-byte slice: reads the
leading `u32`, ignores the trailing 4 bytes. -/
def SoundEffect.unpack (b : List Nat) : SoundEffect where
  unknown := readBE4 b 0x0

/-- `level.rs`: the in-memory level. `level_name` is the Rust `String` as its
list of Unicode code points; `mii_data` is the `[u8; 0x60]` blob. -/
structure Level where
  version : Nat
  creation_time : CreationTime
  level_name : List Nat
  game_mode : GameMode
  course_theme : CourseTheme
  time_limit : Nat
  auto_scroll : AutoScroll
  flags : Nat
  width : Nat
  mii_data : List Nat
  objects : List Object
  sound_effects : List SoundEffect
deriving DecidableEq

/-- The `i32 -> u16` cast `self.creation_time.year() as u16`. -/
def yearWire (y : Int) : Nat := (y % 65536).toNat

/-- The `?` operator of the source on `PackingResult` values: propagate an
error, continue with the payload on success. -/
def andThen (x : Except PackingError (List Nat))
    (f : List Nat → Except PackingError (List Nat)) : Except PackingError (List Nat) :=
  match x with
  | .error e => .error e
  | .ok b => f b

/-- `Level::pack`. Field order and positions follow the source exactly.
The final checksum step of the source seeks the old cursor to 0x8, computes
`crc32fast::hash(&bytes[0x10..])`, but then shadows the cursor with
`Cursor::new(&mut bytes[..])`, whose position is 0 — so the checksum bytes are
written at offset 0x0, over the version field, not at 0x8. -/
def Level.pack (l : Level) : Except PackingError (List Nat) :=
  andThen (writeAll zeroBuf 0x00 (natToBE8 l.version)) fun b1 =>
  andThen (writeAll b1 0x10 (natToBE2 (yearWire l.creation_time.year))) fun b2 =>
  andThen (writeAll b2 0x12 [l.creation_time.month % 256]) fun b3 =>
  andThen (writeAll b3 0x13 [l.creation_time.day % 256]) fun b4 =>
  andThen (writeAll b4 0x14 [l.creation_time.hour % 256]) fun b5 =>
  andThen (writeAll b5 0x15 [l.creation_time.minute % 256]) fun b6 =>
  andThen (ucs2Encode33 l.level_name) fun units =>
  andThen (writeAll b6 0x28 (nameBytes units)) fun b7 =>
  andThen (writeAll b7 0x6A (GameMode.pack l.game_mode)) fun b8 =>
  andThen (writeAll b8 0x6D [CourseTheme.toByte l.course_theme]) fun b9 =>
  andThen (writeAll b9 0x70 (natToBE2 l.time_limit)) fun b10 =>
  andThen (writeAll b10 0x72 [AutoScroll.toByte l.auto_scroll]) fun b11 =>
  andThen (writeAll b11 0x73 [l.flags]) fun b12 =>
  andThen (writeAll b12 0x74 (natToBE4 l.width)) fun b13 =>
  andThen (writeAll b13 0x78 l.mii_data) fun b14 =>
  andThen (writeAll b14 0xEC (natToBE4 (l.objects.length % 0x100000000))) fun b15 =>
  andThen (writeSeq b15 0xF0 (l.objects.map Object.pack)) fun b16 =>
  andThen (writeSeq b16 0x145F0 (l.sound_effects.map SoundEffect.pack)) fun b17 =>
  writeAll b17 0x0 (natToBE4 (crc32 (b17.drop 0x10)))

/-- `Level::unpack` over the fixed `[u8; 0x15000]` array. `none` models the
panic of an out-of-range object-table slice index (object count above 2680);
all other failures are returned `PackingError`s. -/
def Level.unpack (src : List Nat) : Option (Except PackingError Level) :=
  let version := readBE8 src 0x0
  let year := readBE2 src 0x10
  let month := src.getD 0x12 0
  let day := src.getD 0x13 0
  let hour := src.getD 0x14 0
  let minute := src.getD 0x15 0
  if ymdValid (year : Int) month day then
    if hmsValid hour minute then
    let nameUnits := (List.range 0x21).map fun i => readBE2 src (0x28 + 2 * i)
    match ucs2DecodeBytes nameUnits with
    | .error e => some (.error e)
    | .ok nb =>
      match utf8Decode (nb ++ List.replicate (0x21 * 4 - nb.length) 0) with
      | none => some (.error .internalError)
      | some name =>
        match GameMode.unpack (sliceD src 0x6A 2) with
        | .error e => some (.error e)
        | .ok gm =>
          match CourseTheme.tryFrom (src.getD 0x6D 0) with
          | .error e => some (.error e)
          | .ok theme =>
            let tl := readBE2 src 0x70
            match AutoScroll.tryFrom (src.getD 0x72 0) with
            | .error e => some (.error e)
            | .ok scroll =>
              let fl := src.getD 0x73 0
              let w := readBE4 src 0x74
              let mii := sliceD src 0x78 0x60
              let count := readBE4 src 0xEC
              if 0xF0 + count * 0x20 ≤ 0x15000 then
                some (.ok
                  { version := version
                    creation_time := ⟨(year : Int), month, day, hour, minute, 0⟩
                    level_name := name
                    game_mode := gm
                    course_theme := theme
                    time_limit := tl
                    auto_scroll := scroll
                    flags := fl
                    width := w
                    mii_data := mii
                    objects := (List.range count).map fun i =>
                      Object.unpack (sliceD src (0xF0 + i * 0x20) 0x20)
                    sound_effects := (List.range 300).map fun i =>
                      SoundEffect.unpack (sliceD src (0x145F0 + i * 8) 8) })
              else none
    else some (.error .invalidValue)
  else some (.error .invalidValue)

/-- `Level::from_bytes`: `try_into` demands exactly 0x15000 bytes
(`Error::InvalidData` otherwise), and every `PackingError` from `unpack` is
also mapped to `Error::InvalidData`. A panic inside `unpack` propagates. -/
def Level.from_bytes (bytes : List Nat) : Option (Except Error Level) :=
  if bytes.length = 0x15000 then
    match Level.unpack bytes with
    | none => none
    | some (.error _) => some (.error .InvalidData)
    | some (.ok l) => some (.ok l)
  else some (.error .InvalidData)

/-- `Level::to_bytes`. -/
def Level.to_bytes (l : Level) : Except Error (List Nat) :=
  match Level.pack l with
  | .error _ => .error .InvalidData
  | .ok b => .ok b

/-! ## Thumbnail (src/thumbnail.rs) -/

structure Thumbnail where
  jpeg_data : List Nat
deriving DecidableEq

/-- `Thumbnail::from_bytes`: reads the big-endian `u32` length at 0x4 and the
payload at 0x8. The Rust function returns a bare `Thumbnail` with no error
path; `none` models the slice-index panic on a buffer shorter than 8 bytes or
with a length prefix running past the end of the buffer. -/
def Thumbnail.from_bytes (bytes : List Nat) : Option Thumbnail :=
  if bytes.length < 8 then none
  else
    let len := readBE4 bytes 4
    if 8 + len ≤ bytes.length then some ⟨(bytes.drop 8).take len⟩ else none

/-- `Thumbnail::to_bytes`: `FileTooLarge` above 0xC7F8 payload bytes, else
length prefix + payload zero-resized to 0xC7FC bytes, with the CRC-32 of that
region prepended. -/
def Thumbnail.to_bytes (t : Thumbnail) : Except Error (List Nat) :=
  if t.jpeg_data.length > 0xC7F8 then .error .FileTooLarge
  else
    let body := resize (natToBE4 t.jpeg_data.length ++ t.jpeg_data) (0xC800 - 4)
    .ok (natToBE4 (crc32 body) ++ body)

/-! ## Course (src/course.rs) -/

structure Course where
  level : Level
  sub_level : Level
  level_preview : Thumbnail
  level_thumbnail : Thumbnail
deriving DecidableEq

/-- `Course::from_bytes`: decodes the four members in field order; `none`
models a panic propagating from `Thumbnail::from_bytes`. -/
def Course.from_bytes (level sub preview thumbnail : List Nat) :
    Option (Except Error Course) :=
  match Level.from_bytes level with
  | none => none
  | some (.error e) => some (.error e)
  | some (.ok l) =>
    match Level.from_bytes sub with
    | none => none
    | some (.error e) => some (.error e)
    | some (.ok s) =>
      match Thumbnail.from_bytes preview with
      | none => none
      | some p =>
        match Thumbnail.from_bytes thumbnail with
        | none => none
        | some t => some (.ok ⟨l, s, p, t⟩)

/-- The member-selection loop of `Course::from_tar`: the archive boundary is
modelled as the list of (file name, contents) entries, in archive order; a
repeated name overwrites the earlier buffer, other names are ignored. -/
def findMember (entries : List (String × List Nat)) (nm : String) :
    Option (List Nat) :=
  entries.foldl (fun acc e => if e.1 = nm then some e.2 else acc) none

/-- `Course::from_tar`: the four `ok_or(Error::MissingCourseData(..))` checks
run in argument order before `Course::from_bytes` is entered. -/
def Course.from_tar (entries : List (String × List Nat)) :
    Option (Except Error Course) :=
  match findMember entries "course_data.cdt" with
  | none => some (.error (.MissingCourseData .CourseData))
  | some lv =>
    match findMember entries "course_data_sub.cdt" with
    | none => some (.error (.MissingCourseData .CourseDataSub))
    | some sb =>
      match findMember entries "thumbnail0.tnl" with
      | none => some (.error (.MissingCourseData .Thumbnail0))
      | some pv =>
        match findMember entries "thumbnail1.tnl" with
        | none => some (.error (.MissingCourseData .Thumbnail1))
        | some th => Course.from_bytes lv sb pv th

/-! ## Helper views used by the theorems -/

/-- The bytes produced by a successful `Level::pack` (empty on failure). -/
def packOut (l : Level) : List Nat := ((Level.pack l).toOption).getD []

/-- The success condition of `Level::pack`: the name fits the 33-unit UCS-2
buffer, and the Mii blob, object table and sound-effect table writes stay
inside the 0x15000-byte buffer. -/
def PackOk (l : Level) : Prop :=
  (∀ c ∈ l.level_name, c < 0x10000) ∧ l.level_name.length ≤ 33 ∧
  0x78 + l.mii_data.length ≤ 0x15000 ∧ l.objects.length ≤ 2680 ∧
  l.sound_effects.length ≤ 322

instance (l : Level) : Decidable (PackOk l) := by
  unfold PackOk
  exact inferInstance

/-- Successive buffer states of a successful `Level::pack`, written with the
total overlay writes; `packBuf` below is the final state, equal to the value
inside `Level.pack` whenever `PackOk` holds. -/
def pB1 (l : Level) : List Nat := writeRaw zeroBuf 0x00 (natToBE8 l.version)

def pB2 (l : Level) : List Nat :=
  writeRaw (pB1 l) 0x10 (natToBE2 (yearWire l.creation_time.year))

def pB3 (l : Level) : List Nat := writeRaw (pB2 l) 0x12 [l.creation_time.month % 256]

def pB4 (l : Level) : List Nat := writeRaw (pB3 l) 0x13 [l.creation_time.day % 256]

def pB5 (l : Level) : List Nat := writeRaw (pB4 l) 0x14 [l.creation_time.hour % 256]

def pB6 (l : Level) : List Nat := writeRaw (pB5 l) 0x15 [l.creation_time.minute % 256]

def pB7 (l : Level) : List Nat :=
  writeRaw (pB6 l) 0x28
    (nameBytes (l.level_name ++ List.replicate (33 - l.level_name.length) 0))

def pB8 (l : Level) : List Nat := writeRaw (pB7 l) 0x6A (GameMode.pack l.game_mode)

def pB9 (l : Level) : List Nat := writeRaw (pB8 l) 0x6D [CourseTheme.toByte l.course_theme]

def pB10 (l : Level) : List Nat := writeRaw (pB9 l) 0x70 (natToBE2 l.time_limit)

def pB11 (l : Level) : List Nat := writeRaw (pB10 l) 0x72 [AutoScroll.toByte l.auto_scroll]

def pB12 (l : Level) : List Nat := writeRaw (pB11 l) 0x73 [l.flags]

def pB13 (l : Level) : List Nat := writeRaw (pB12 l) 0x74 (natToBE4 l.width)

def pB14 (l : Level) : List Nat := writeRaw (pB13 l) 0x78 l.mii_data

def pB15 (l : Level) : List Nat :=
  writeRaw (pB14 l) 0xEC (natToBE4 (l.objects.length % 0x100000000))

def pB16 (l : Level) : List Nat := writeChunksRaw (pB15 l) 0xF0 (l.objects.map Object.pack)

def pB17 (l : Level) : List Nat :=
  writeChunksRaw (pB16 l) 0x145F0 (l.sound_effects.map SoundEffect.pack)

def packBuf (l : Level) : List Nat :=
  writeRaw (pB17 l) 0x0 (natToBE4 (crc32 ((pB17 l).drop 0x10)))

/-! ## Concrete fixtures used by witnesses and counterexamples -/

/-- A minimal timestamp (2015-01-01 00:00:00). -/
def t2015 : CreationTime := ⟨2015, 1, 1, 0, 0, 0⟩

/-- A minimal valid level with an empty name. -/
def lvlEmpty : Level where
  version := 11
  creation_time := t2015
  level_name := []
  game_mode := .SuperMarioBros
  course_theme := .Overworld
  time_limit := 100
  auto_scroll := .None
  flags := 0
  width := 0
  mii_data := List.replicate 0x60 0
  objects := []
  sound_effects := List.replicate 300 ⟨0⟩

/-- The same level with the one-character name "A". -/
def lvlA : Level := { lvlEmpty with level_name := [65] }

/-- An 0x15000-byte buffer whose fields all decode: date 0000-01-01 00:00,
all-zero name units, game-mode tag "M1", theme 0, autoscroll 0, count 0. -/
def goodLevelBytes : List Nat :=
  (((zeroBuf.set 0x12 1).set 0x13 1).set 0x6A 77).set 0x6B 49

/-! ## Basic list lemmas -/

theorem getD_take (l : List Nat) (p i : Nat) (h : i < p) :
    (l.take p).getD i 0 = l.getD i 0 := by
  induction l generalizing p i with
  | nil => simp
  | cons a t ih =>
    cases p with
    | zero => omega
    | succ p =>
      cases i with
      | zero => simp
      | succ i => simpa using ih p i (by omega)

theorem getD_drop (l : List Nat) (k j : Nat) :
    (l.drop k).getD j 0 = l.getD (k + j) 0 := by
  induction l generalizing k with
  | nil => simp
  | cons a t ih =>
    cases k with
    | zero => simp
    | succ k => simpa [Nat.succ_add] using ih k

theorem getD_replicate_zero (n i : Nat) : (List.replicate n 0).getD i 0 = 0 := by
  induction n generalizing i with
  | zero => simp
  | succ n ih =>
    cases i with
    | zero => simp [List.replicate_succ]
    | succ i => simpa [List.replicate_succ] using ih i

theorem getD_set_ne (l : List Nat) (n i v : Nat) (h : n ≠ i) :
    (l.set n v).getD i 0 = l.getD i 0 := by
  simp [List.getD, List.getD_eq_getD_get?, List.get?_eq_getElem?,
    List.getElem?_set_ne h]

theorem zeroBuf_length : zeroBuf.length = 0x15000 := List.length_replicate _ _

theorem getD_zeroBuf (i : Nat) : zeroBuf.getD i 0 = 0 := getD_replicate_zero _ _

/-! ## writeRaw / writeAll / writeSeq lemmas -/

theorem writeRaw_length (b d : List Nat) (p : Nat) (hp : p + d.length ≤ b.length) :
    (writeRaw b p d).length = b.length := by
  simp [writeRaw]
  omega

theorem writeRaw_getD_lt (b d : List Nat) (p i : Nat) (hp : p + d.length ≤ b.length)
    (h : i < p) : (writeRaw b p d).getD i 0 = b.getD i 0 := by
  rw [writeRaw, List.append_assoc, List.getD_append _ _ _ _ (by simp; omega),
    getD_take b p i h]

theorem writeRaw_getD_ge (b d : List Nat) (p i : Nat) (hp : p + d.length ≤ b.length)
    (h : p + d.length ≤ i) : (writeRaw b p d).getD i 0 = b.getD i 0 := by
  rw [writeRaw, List.getD_append_right _ _ _ _ (by simp; omega), getD_drop]
  congr 1
  simp
  omega

theorem writeRaw_getD_in (b d : List Nat) (p i : Nat) (hp : p + d.length ≤ b.length)
    (h : i < d.length) : (writeRaw b p d).getD (p + i) 0 = d.getD i 0 := by
  have ht : (List.take p b).length = p := by simp; omega
  rw [writeRaw, List.append_assoc, List.getD_append_right _ _ _ _ (by rw [ht]; omega),
    ht, Nat.add_sub_cancel_left, List.getD_append _ _ _ _ h]

theorem writeRaw_zero_drop (b d : List Nat) (k : Nat) (h : d.length ≤ k) :
    (writeRaw b 0 d).drop k = b.drop k := by
  have hk : k = d.length + (k - d.length) := by omega
  rw [writeRaw, List.take_zero, List.nil_append, hk, List.drop_append, List.drop_drop]
  congr 1
  omega

theorem writeAll_pos (b d : List Nat) (p : Nat) (hp : p + d.length ≤ b.length) :
    writeAll b p d = .ok (writeRaw b p d) := by
  simp [writeAll, hp]

theorem writeAll_neg (b d : List Nat) (p : Nat) (hp : ¬ p + d.length ≤ b.length) :
    writeAll b p d = .error .internalError := by
  simp [writeAll, hp]

theorem writeSeq_eq_ok (ds : List (List Nat)) (b : List Nat) (p : Nat)
    (h : p + (ds.map List.length).sum ≤ b.length) :
    writeSeq b p ds = .ok (writeChunksRaw b p ds) := by
  induction ds generalizing b p with
  | nil => rfl
  | cons d ds ih =>
    have hd : p + d.length ≤ b.length := by simp at h; omega
    rw [writeSeq, writeAll_pos _ _ _ hd, writeChunksRaw]
    exact ih _ _ (by rw [writeRaw_length _ _ _ hd]; simp at h ⊢; omega)

theorem writeSeq_err (ds : List (List Nat)) (b : List Nat) (p : Nat)
    (hp : p ≤ b.length) (h : b.length < p + (ds.map List.length).sum) :
    writeSeq b p ds = .error .internalError := by
  induction ds generalizing b p with
  | nil => simp at h; omega
  | cons d ds ih =>
    by_cases hd : p + d.length ≤ b.length
    · rw [writeSeq, writeAll_pos _ _ _ hd]
      exact ih _ _ (by rw [writeRaw_length _ _ _ hd]; omega)
        (by rw [writeRaw_length _ _ _ hd]; simp at h ⊢; omega)
    · rw [writeSeq, writeAll_neg _ _ _ hd]

theorem writeChunksRaw_length (ds : List (List Nat)) (b : List Nat) (p : Nat)
    (h : p + (ds.map List.length).sum ≤ b.length) :
    (writeChunksRaw b p ds).length = b.length := by
  induction ds generalizing b p with
  | nil => rfl
  | cons d ds ih =>
    have hd : p + d.length ≤ b.length := by simp at h; omega
    rw [writeChunksRaw, ih _ _ (by rw [writeRaw_length _ _ _ hd]; simp at h ⊢; omega),
      writeRaw_length _ _ _ hd]

theorem writeChunksRaw_getD_lt (ds : List (List Nat)) (b : List Nat) (p i : Nat)
    (h : p + (ds.map List.length).sum ≤ b.length) (hi : i < p) :
    (writeChunksRaw b p ds).getD i 0 = b.getD i 0 := by
  induction ds generalizing b p with
  | nil => rfl
  | cons d ds ih =>
    have hd : p + d.length ≤ b.length := by simp at h; omega
    rw [writeChunksRaw, ih _ _ (by rw [writeRaw_length _ _ _ hd]; simp at h ⊢; omega)
      (by omega), writeRaw_getD_lt _ _ _ _ hd hi]

-- From here on, definitional unfolding of the write primitives is blocked:
-- reductions go through the lemmas above, never through evaluation of the
-- 0x15000-element buffer.
attribute [irreducible] writeRaw writeAll writeSeq writeChunksRaw

/-! ## CRC-32 range -/

theorem crc32Bit_lt (c : Nat) (h : c < 0x100000000) : crc32Bit c < 0x100000000 := by
  rw [crc32Bit]
  split
  · exact Nat.xor_lt_two_pow (n := 32) (by omega) (by norm_num)
  · omega

theorem crc32Byte_lt (c b : Nat) (h : c < 0x100000000) :
    crc32Byte c b < 0x100000000 := by
  have h0 : Nat.xor c (b % 256) < 0x100000000 :=
    Nat.xor_lt_two_pow (n := 32) h (by have := Nat.mod_lt b (y := 256) (by omega); omega)
  exact crc32Bit_lt _ (crc32Bit_lt _ (crc32Bit_lt _ (crc32Bit_lt _ (crc32Bit_lt _
    (crc32Bit_lt _ (crc32Bit_lt _ (crc32Bit_lt _ h0)))))))

theorem crc32_foldl_lt (data : List Nat) (c : Nat) (h : c < 0x100000000) :
    data.foldl crc32Byte c < 0x100000000 := by
  induction data generalizing c with
  | nil => exact h
  | cons x xs ih => exact ih _ (crc32Byte_lt _ _ h)

theorem crc32_lt (data : List Nat) : crc32 data < 0x100000000 := by
  rw [crc32]
  exact Nat.xor_lt_two_pow (n := 32) (crc32_foldl_lt _ _ (by norm_num)) (by norm_num)

/-! ## Read-back of written big-endian fields -/

theorem readBE4_of_writeRaw (b : List Nat) (v p : Nat) (hp : p + 4 ≤ b.length)
    (hv : v < 0x100000000) : readBE4 (writeRaw b p (natToBE4 v)) p = v := by
  have hl : (natToBE4 v).length = 4 := by simp [natToBE4]
  have h0 := writeRaw_getD_in b (natToBE4 v) p 0 (by rw [hl]; omega) (by rw [hl]; omega)
  have h1 := writeRaw_getD_in b (natToBE4 v) p 1 (by rw [hl]; omega) (by rw [hl]; omega)
  have h2 := writeRaw_getD_in b (natToBE4 v) p 2 (by rw [hl]; omega) (by rw [hl]; omega)
  have h3 := writeRaw_getD_in b (natToBE4 v) p 3 (by rw [hl]; omega) (by rw [hl]; omega)
  rw [show p + 0 = p from rfl] at h0
  rw [readBE4, h0, h1, h2, h3,
    show (natToBE4 v).getD 0 0 = v / 0x1000000 % 256 from rfl,
    show (natToBE4 v).getD 1 0 = v / 0x10000 % 256 from rfl,
    show (natToBE4 v).getD 2 0 = v / 0x100 % 256 from rfl,
    show (natToBE4 v).getD 3 0 = v % 256 from rfl]
  omega

theorem readBE2_of_writeRaw (b : List Nat) (v p : Nat) (hp : p + 2 ≤ b.length)
    (hv : v < 0x10000) : readBE2 (writeRaw b p (natToBE2 v)) p = v := by
  have hl : (natToBE2 v).length = 2 := by simp [natToBE2]
  have h0 := writeRaw_getD_in b (natToBE2 v) p 0 (by rw [hl]; omega) (by rw [hl]; omega)
  have h1 := writeRaw_getD_in b (natToBE2 v) p 1 (by rw [hl]; omega) (by rw [hl]; omega)
  rw [show p + 0 = p from rfl] at h0
  rw [readBE2, h0, h1,
    show (natToBE2 v).getD 0 0 = v / 0x100 % 256 from rfl,
    show (natToBE2 v).getD 1 0 = v % 256 from rfl]
  omega

/-! ## Lengths of packed records and of the pack buffer states -/

theorem nameBytes_length (us : List Nat) : (nameBytes us).length = 2 * us.length := by
  induction us with
  | nil => rfl
  | cons u us ih => simp [nameBytes, ih]; omega

theorem gameMode_pack_length (g : GameMode) : (GameMode.pack g).length = 2 := by
  cases g <;> rfl

theorem object_pack_length (o : Object) : (Object.pack o).length = 32 := by
  simp [Object.pack, natToBE4, natToBE2, intToBE2, intByte]

theorem soundEffect_pack_length (s : SoundEffect) : (SoundEffect.pack s).length = 8 := by
  simp [SoundEffect.pack, natToBE4]

theorem obj_chunks_sum (os : List Object) :
    ((os.map Object.pack).map List.length).sum = 32 * os.length := by
  induction os with
  | nil => rfl
  | cons o os ih =>
    simp only [List.map_cons, List.sum_cons, object_pack_length, ih, List.length_cons]
    ring

theorem sfx_chunks_sum (ss : List SoundEffect) :
    ((ss.map SoundEffect.pack).map List.length).sum = 8 * ss.length := by
  induction ss with
  | nil => rfl
  | cons s ss ih =>
    simp only [List.map_cons, List.sum_cons, soundEffect_pack_length, ih, List.length_cons]
    ring

theorem natToBE2_length (n : Nat) : (natToBE2 n).length = 2 := rfl

theorem natToBE4_length (n : Nat) : (natToBE4 n).length = 4 := rfl

theorem natToBE8_length (n : Nat) : (natToBE8 n).length = 8 := rfl

theorem pB1_length (l : Level) : (pB1 l).length = 0x15000 := by
  rw [pB1, writeRaw_length _ _ _ (by rw [natToBE8_length, zeroBuf_length]; omega)]
  exact zeroBuf_length

theorem pB2_length (l : Level) : (pB2 l).length = 0x15000 := by
  rw [pB2, writeRaw_length _ _ _ (by rw [natToBE2_length, pB1_length]; omega)]
  exact pB1_length l

theorem pB3_length (l : Level) : (pB3 l).length = 0x15000 := by
  rw [pB3, writeRaw_length _ _ _ (by rw [List.length_singleton, pB2_length]; omega)]
  exact pB2_length l

theorem pB4_length (l : Level) : (pB4 l).length = 0x15000 := by
  rw [pB4, writeRaw_length _ _ _ (by rw [List.length_singleton, pB3_length]; omega)]
  exact pB3_length l

theorem pB5_length (l : Level) : (pB5 l).length = 0x15000 := by
  rw [pB5, writeRaw_length _ _ _ (by rw [List.length_singleton, pB4_length]; omega)]
  exact pB4_length l

theorem pB6_length (l : Level) : (pB6 l).length = 0x15000 := by
  rw [pB6, writeRaw_length _ _ _ (by rw [List.length_singleton, pB5_length]; omega)]
  exact pB5_length l

theorem pB7_length (l : Level) (hname : l.level_name.length ≤ 33) :
    (pB7 l).length = 0x15000 := by
  rw [pB7, writeRaw_length _ _ _
    (by rw [nameBytes_length, List.length_append, List.length_replicate, pB6_length]; omega)]
  exact pB6_length l

theorem pB8_length (l : Level) (hname : l.level_name.length ≤ 33) :
    (pB8 l).length = 0x15000 := by
  rw [pB8, writeRaw_length _ _ _ (by rw [gameMode_pack_length, pB7_length l hname]; omega)]
  exact pB7_length l hname

theorem pB9_length (l : Level) (hname : l.level_name.length ≤ 33) :
    (pB9 l).length = 0x15000 := by
  rw [pB9, writeRaw_length _ _ _ (by rw [List.length_singleton, pB8_length l hname]; omega)]
  exact pB8_length l hname

theorem pB10_length (l : Level) (hname : l.level_name.length ≤ 33) :
    (pB10 l).length = 0x15000 := by
  rw [pB10, writeRaw_length _ _ _ (by rw [natToBE2_length, pB9_length l hname]; omega)]
  exact pB9_length l hname

theorem pB11_length (l : Level) (hname : l.level_name.length ≤ 33) :
    (pB11 l).length = 0x15000 := by
  rw [pB11, writeRaw_length _ _ _ (by rw [List.length_singleton, pB10_length l hname]; omega)]
  exact pB10_length l hname

theorem pB12_length (l : Level) (hname : l.level_name.length ≤ 33) :
    (pB12 l).length = 0x15000 := by
  rw [pB12, writeRaw_length _ _ _ (by rw [List.length_singleton, pB11_length l hname]; omega)]
  exact pB11_length l hname

theorem pB13_length (l : Level) (hname : l.level_name.length ≤ 33) :
    (pB13 l).length = 0x15000 := by
  rw [pB13, writeRaw_length _ _ _ (by rw [natToBE4_length, pB12_length l hname]; omega)]
  exact pB12_length l hname

theorem pB14_length (l : Level) (hname : l.level_name.length ≤ 33)
    (hmii : 0x78 + l.mii_data.length ≤ 0x15000) : (pB14 l).length = 0x15000 := by
  rw [pB14, writeRaw_length _ _ _ (by rw [pB13_length l hname]; omega)]
  exact pB13_length l hname

theorem pB15_length (l : Level) (hname : l.level_name.length ≤ 33)
    (hmii : 0x78 + l.mii_data.length ≤ 0x15000) : (pB15 l).length = 0x15000 := by
  rw [pB15, writeRaw_length _ _ _ (by rw [natToBE4_length, pB14_length l hname hmii]; omega)]
  exact pB14_length l hname hmii

theorem pB16_length (l : Level) (hname : l.level_name.length ≤ 33)
    (hmii : 0x78 + l.mii_data.length ≤ 0x15000) (hobj : l.objects.length ≤ 2680) :
    (pB16 l).length = 0x15000 := by
  rw [pB16, writeChunksRaw_length _ _ _
    (by rw [obj_chunks_sum, pB15_length l hname hmii]; omega)]
  exact pB15_length l hname hmii

theorem pB17_length (l : Level) (hname : l.level_name.length ≤ 33)
    (hmii : 0x78 + l.mii_data.length ≤ 0x15000) (hobj : l.objects.length ≤ 2680)
    (hsfx : l.sound_effects.length ≤ 322) : (pB17 l).length = 0x15000 := by
  rw [pB17, writeChunksRaw_length _ _ _
    (by rw [sfx_chunks_sum, pB16_length l hname hmii hobj]; omega)]
  exact pB16_length l hname hmii hobj

theorem packBuf_length (l : Level) (hname : l.level_name.length ≤ 33)
    (hmii : 0x78 + l.mii_data.length ≤ 0x15000) (hobj : l.objects.length ≤ 2680)
    (hsfx : l.sound_effects.length ≤ 322) : (packBuf l).length = 0x15000 := by
  rw [packBuf, writeRaw_length _ _ _
    (by rw [natToBE4_length, pB17_length l hname hmii hobj hsfx]; omega)]
  exact pB17_length l hname hmii hobj hsfx

/-! ## Evaluating `Level.pack` -/

theorem ucs2Encode33_ok (l : Level) (hcp : ∀ c ∈ l.level_name, c < 0x10000)
    (hlen : l.level_name.length ≤ 33) :
    ucs2Encode33 l.level_name =
      .ok (l.level_name ++ List.replicate (33 - l.level_name.length) 0) := by
  rw [ucs2Encode33, if_pos]
  simp [List.all_eq_true]
  exact ⟨hcp, hlen⟩

theorem ucs2Encode33_err (l : Level)
    (h : ¬ ((∀ c ∈ l.level_name, c < 0x10000) ∧ l.level_name.length ≤ 33)) :
    ucs2Encode33 l.level_name = .error .internalError := by
  rw [ucs2Encode33, if_neg]
  intro hc
  rw [Bool.and_eq_true, List.all_eq_true, decide_eq_true_eq] at hc
  exact h ⟨fun c hcm => by simpa using hc.1 c hcm, hc.2⟩

theorem andThen_ok (b : List Nat) (f : List Nat → Except PackingError (List Nat)) :
    andThen (.ok b) f = f b := by
  rw [andThen]

theorem andThen_err (e : PackingError) (f : List Nat → Except PackingError (List Nat)) :
    andThen (.error e) f = .error e := by
  rw [andThen]

theorem pack_eq_ok (l : Level) (h : PackOk l) : Level.pack l = .ok (packBuf l) := by
  obtain ⟨hcp, hlen, hmii, hobj, hsfx⟩ := h
  have e1 : writeAll zeroBuf 0x00 (natToBE8 l.version) = .ok (pB1 l) :=
    writeAll_pos _ _ _ (by rw [natToBE8_length, zeroBuf_length]; omega)
  have e2 : writeAll (pB1 l) 0x10 (natToBE2 (yearWire l.creation_time.year)) = .ok (pB2 l) :=
    writeAll_pos _ _ _ (by rw [natToBE2_length, pB1_length]; omega)
  have e3 : writeAll (pB2 l) 0x12 [l.creation_time.month % 256] = .ok (pB3 l) :=
    writeAll_pos _ _ _ (by rw [List.length_singleton, pB2_length]; omega)
  have e4 : writeAll (pB3 l) 0x13 [l.creation_time.day % 256] = .ok (pB4 l) :=
    writeAll_pos _ _ _ (by rw [List.length_singleton, pB3_length]; omega)
  have e5 : writeAll (pB4 l) 0x14 [l.creation_time.hour % 256] = .ok (pB5 l) :=
    writeAll_pos _ _ _ (by rw [List.length_singleton, pB4_length]; omega)
  have e6 : writeAll (pB5 l) 0x15 [l.creation_time.minute % 256] = .ok (pB6 l) :=
    writeAll_pos _ _ _ (by rw [List.length_singleton, pB5_length]; omega)
  have henc := ucs2Encode33_ok l hcp hlen
  have e7 : writeAll (pB6 l) 0x28
      (nameBytes (l.level_name ++ List.replicate (33 - l.level_name.length) 0)) = .ok (pB7 l) :=
    writeAll_pos _ _ _
      (by rw [nameBytes_length, List.length_append, List.length_replicate, pB6_length]; omega)
  have e8 : writeAll (pB7 l) 0x6A (GameMode.pack l.game_mode) = .ok (pB8 l) :=
    writeAll_pos _ _ _ (by rw [gameMode_pack_length, pB7_length l hlen]; omega)
  have e9 : writeAll (pB8 l) 0x6D [CourseTheme.toByte l.course_theme] = .ok (pB9 l) :=
    writeAll_pos _ _ _ (by rw [List.length_singleton, pB8_length l hlen]; omega)
  have e10 : writeAll (pB9 l) 0x70 (natToBE2 l.time_limit) = .ok (pB10 l) :=
    writeAll_pos _ _ _ (by rw [natToBE2_length, pB9_length l hlen]; omega)
  have e11 : writeAll (pB10 l) 0x72 [AutoScroll.toByte l.auto_scroll] = .ok (pB11 l) :=
    writeAll_pos _ _ _ (by rw [List.length_singleton, pB10_length l hlen]; omega)
  have e12 : writeAll (pB11 l) 0x73 [l.flags] = .ok (pB12 l) :=
    writeAll_pos _ _ _ (by rw [List.length_singleton, pB11_length l hlen]; omega)
  have e13 : writeAll (pB12 l) 0x74 (natToBE4 l.width) = .ok (pB13 l) :=
    writeAll_pos _ _ _ (by rw [natToBE4_length, pB12_length l hlen]; omega)
  have e14 : writeAll (pB13 l) 0x78 l.mii_data = .ok (pB14 l) :=
    writeAll_pos _ _ _ (by rw [pB13_length l hlen]; omega)
  have e15 : writeAll (pB14 l) 0xEC (natToBE4 (l.objects.length % 0x100000000)) = .ok (pB15 l) :=
    writeAll_pos _ _ _ (by rw [natToBE4_length, pB14_length l hlen hmii]; omega)
  have e16 : writeSeq (pB15 l) 0xF0 (l.objects.map Object.pack) = .ok (pB16 l) :=
    writeSeq_eq_ok _ _ _ (by rw [obj_chunks_sum, pB15_length l hlen hmii]; omega)
  have e17 : writeSeq (pB16 l) 0x145F0 (l.sound_effects.map SoundEffect.pack) = .ok (pB17 l) :=
    writeSeq_eq_ok _ _ _ (by rw [sfx_chunks_sum, pB16_length l hlen hmii hobj]; omega)
  have e18 : writeAll (pB17 l) 0x0 (natToBE4 (crc32 ((pB17 l).drop 0x10))) = .ok (packBuf l) :=
    writeAll_pos _ _ _ (by rw [natToBE4_length, pB17_length l hlen hmii hobj hsfx]; omega)
  simp only [Level.pack, e1, andThen_ok, andThen_err, e2, e3, e4, e5, e6, henc, e7, e8, e9, e10,
    e11, e12, e13, e14, e15, e16, e17, e18]

theorem pack_isOk_iff (l : Level) : (Level.pack l).isOk = true ↔ PackOk l := by
  constructor
  · intro hOk
    have e1 : writeAll zeroBuf 0x00 (natToBE8 l.version) = .ok (pB1 l) :=
      writeAll_pos _ _ _ (by rw [natToBE8_length, zeroBuf_length]; omega)
    have e2 : writeAll (pB1 l) 0x10 (natToBE2 (yearWire l.creation_time.year)) = .ok (pB2 l) :=
      writeAll_pos _ _ _ (by rw [natToBE2_length, pB1_length]; omega)
    have e3 : writeAll (pB2 l) 0x12 [l.creation_time.month % 256] = .ok (pB3 l) :=
      writeAll_pos _ _ _ (by rw [List.length_singleton, pB2_length]; omega)
    have e4 : writeAll (pB3 l) 0x13 [l.creation_time.day % 256] = .ok (pB4 l) :=
      writeAll_pos _ _ _ (by rw [List.length_singleton, pB3_length]; omega)
    have e5 : writeAll (pB4 l) 0x14 [l.creation_time.hour % 256] = .ok (pB5 l) :=
      writeAll_pos _ _ _ (by rw [List.length_singleton, pB4_length]; omega)
    have e6 : writeAll (pB5 l) 0x15 [l.creation_time.minute % 256] = .ok (pB6 l) :=
      writeAll_pos _ _ _ (by rw [List.length_singleton, pB5_length]; omega)
    by_cases hname : (∀ c ∈ l.level_name, c < 0x10000) ∧ l.level_name.length ≤ 33
    case neg =>
      exfalso
      have henc := ucs2Encode33_err l hname
      simp only [Level.pack, e1, andThen_ok, e2, e3, e4, e5, e6, henc,
        andThen_err] at hOk
      exact Bool.false_ne_true hOk
    case pos =>
      obtain ⟨hcp, hlen⟩ := hname
      have henc := ucs2Encode33_ok l hcp hlen
      have e7 : writeAll (pB6 l) 0x28
          (nameBytes (l.level_name ++ List.replicate (33 - l.level_name.length) 0)) =
          .ok (pB7 l) :=
        writeAll_pos _ _ _
          (by rw [nameBytes_length, List.length_append, List.length_replicate, pB6_length]
              omega)
      have e8 : writeAll (pB7 l) 0x6A (GameMode.pack l.game_mode) = .ok (pB8 l) :=
        writeAll_pos _ _ _ (by rw [gameMode_pack_length, pB7_length l hlen]; omega)
      have e9 : writeAll (pB8 l) 0x6D [CourseTheme.toByte l.course_theme] = .ok (pB9 l) :=
        writeAll_pos _ _ _ (by rw [List.length_singleton, pB8_length l hlen]; omega)
      have e10 : writeAll (pB9 l) 0x70 (natToBE2 l.time_limit) = .ok (pB10 l) :=
        writeAll_pos _ _ _ (by rw [natToBE2_length, pB9_length l hlen]; omega)
      have e11 : writeAll (pB10 l) 0x72 [AutoScroll.toByte l.auto_scroll] = .ok (pB11 l) :=
        writeAll_pos _ _ _ (by rw [List.length_singleton, pB10_length l hlen]; omega)
      have e12 : writeAll (pB11 l) 0x73 [l.flags] = .ok (pB12 l) :=
        writeAll_pos _ _ _ (by rw [List.length_singleton, pB11_length l hlen]; omega)
      have e13 : writeAll (pB12 l) 0x74 (natToBE4 l.width) = .ok (pB13 l) :=
        writeAll_pos _ _ _ (by rw [natToBE4_length, pB12_length l hlen]; omega)
      by_cases hmii : 0x78 + l.mii_data.length ≤ 0x15000
      case neg =>
        exfalso
        have e14 : writeAll (pB13 l) 0x78 l.mii_data = .error .internalError :=
          writeAll_neg _ _ _ (by rw [pB13_length l hlen]; omega)
        simp only [Level.pack, e1, andThen_ok, andThen_err, e2, e3, e4, e5, e6, henc, e7, e8, e9,
          e10, e11, e12, e13, e14] at hOk
        exact Bool.false_ne_true hOk
      case pos =>
        have e14 : writeAll (pB13 l) 0x78 l.mii_data = .ok (pB14 l) :=
          writeAll_pos _ _ _ (by rw [pB13_length l hlen]; omega)
        have e15 : writeAll (pB14 l) 0xEC (natToBE4 (l.objects.length % 0x100000000)) =
            .ok (pB15 l) :=
          writeAll_pos _ _ _ (by rw [natToBE4_length, pB14_length l hlen hmii]; omega)
        by_cases hobj : l.objects.length ≤ 2680
        case neg =>
          exfalso
          have e16 : writeSeq (pB15 l) 0xF0 (l.objects.map Object.pack) =
              .error .internalError :=
            writeSeq_err _ _ _ (by rw [pB15_length l hlen hmii]; omega)
              (by rw [obj_chunks_sum, pB15_length l hlen hmii]; omega)
          simp only [Level.pack, e1, andThen_ok, andThen_err, e2, e3, e4, e5, e6, henc, e7, e8, e9,
            e10, e11, e12, e13, e14, e15, e16] at hOk
          exact Bool.false_ne_true hOk
        case pos =>
          have e16 : writeSeq (pB15 l) 0xF0 (l.objects.map Object.pack) = .ok (pB16 l) :=
            writeSeq_eq_ok _ _ _ (by rw [obj_chunks_sum, pB15_length l hlen hmii]; omega)
          by_cases hsfx : l.sound_effects.length ≤ 322
          case neg =>
            exfalso
            have e17 : writeSeq (pB16 l) 0x145F0 (l.sound_effects.map SoundEffect.pack) =
                .error .internalError :=
              writeSeq_err _ _ _ (by rw [pB16_length l hlen hmii hobj]; omega)
                (by rw [sfx_chunks_sum, pB16_length l hlen hmii hobj]; omega)
            simp only [Level.pack, e1, andThen_ok, andThen_err, e2, e3, e4, e5, e6, henc, e7, e8,
              e9, e10, e11, e12, e13, e14, e15, e16, e17] at hOk
            exact Bool.false_ne_true hOk
          case pos =>
            exact ⟨hcp, hlen, hmii, hobj, hsfx⟩
  · intro h
    rw [pack_eq_ok l h]
    rfl

theorem packOut_eq (l : Level) (h : PackOk l) : packOut l = packBuf l := by
  rw [packOut, pack_eq_ok l h]
  rfl

/-! ## Byte-level facts about the pack output -/

theorem writeRaw_getD_abs (b d : List Nat) (p i j : Nat) (hp : p + d.length ≤ b.length)
    (hj : j < d.length) (hij : i = p + j) : (writeRaw b p d).getD i 0 = d.getD j 0 := by
  subst hij
  exact writeRaw_getD_in b d p j hp hj

theorem yearWire_lt (y : Int) : yearWire y < 65536 := by
  rw [yearWire]
  have h1 := Int.emod_lt_of_pos y (b := 65536) (by norm_num)
  have h2 := Int.emod_nonneg y (by norm_num : (65536 : Int) ≠ 0)
  omega

theorem packBuf_getD_low (l : Level) (hlen : l.level_name.length ≤ 33)
    (hmii : 0x78 + l.mii_data.length ≤ 0x15000) (hobj : l.objects.length ≤ 2680)
    (hsfx : l.sound_effects.length ≤ 322) (i : Nat) (h4 : 4 ≤ i) (h22 : i < 0x16) :
    (packBuf l).getD i 0 = (pB6 l).getD i 0 := by
  rw [packBuf, writeRaw_getD_ge _ _ _ _
    (by rw [natToBE4_length, pB17_length l hlen hmii hobj hsfx]; omega)
    (by rw [natToBE4_length]; omega)]
  rw [pB17, writeChunksRaw_getD_lt _ _ _ _
    (by rw [sfx_chunks_sum, pB16_length l hlen hmii hobj]; omega) (by omega)]
  rw [pB16, writeChunksRaw_getD_lt _ _ _ _
    (by rw [obj_chunks_sum, pB15_length l hlen hmii]; omega) (by omega)]
  rw [pB15, writeRaw_getD_lt _ _ _ _
    (by rw [natToBE4_length, pB14_length l hlen hmii]; omega) (by omega)]
  rw [pB14, writeRaw_getD_lt _ _ _ _ (by rw [pB13_length l hlen]; omega) (by omega)]
  rw [pB13, writeRaw_getD_lt _ _ _ _
    (by rw [natToBE4_length, pB12_length l hlen]; omega) (by omega)]
  rw [pB12, writeRaw_getD_lt _ _ _ _
    (by rw [List.length_singleton, pB11_length l hlen]; omega) (by omega)]
  rw [pB11, writeRaw_getD_lt _ _ _ _
    (by rw [List.length_singleton, pB10_length l hlen]; omega) (by omega)]
  rw [pB10, writeRaw_getD_lt _ _ _ _
    (by rw [natToBE2_length, pB9_length l hlen]; omega) (by omega)]
  rw [pB9, writeRaw_getD_lt _ _ _ _
    (by rw [List.length_singleton, pB8_length l hlen]; omega) (by omega)]
  rw [pB8, writeRaw_getD_lt _ _ _ _
    (by rw [gameMode_pack_length, pB7_length l hlen]; omega) (by omega)]
  rw [pB7, writeRaw_getD_lt _ _ _ _
    (by rw [nameBytes_length, List.length_append, List.length_replicate, pB6_length]; omega)
    (by omega)]

theorem packBuf_getD_name (l : Level) (hlen : l.level_name.length ≤ 33)
    (hmii : 0x78 + l.mii_data.length ≤ 0x15000) (hobj : l.objects.length ≤ 2680)
    (hsfx : l.sound_effects.length ≤ 322) (i : Nat) (h1 : 0x28 ≤ i) (h2 : i < 0x6A) :
    (packBuf l).getD i 0 = (pB7 l).getD i 0 := by
  rw [packBuf, writeRaw_getD_ge _ _ _ _
    (by rw [natToBE4_length, pB17_length l hlen hmii hobj hsfx]; omega)
    (by rw [natToBE4_length]; omega)]
  rw [pB17, writeChunksRaw_getD_lt _ _ _ _
    (by rw [sfx_chunks_sum, pB16_length l hlen hmii hobj]; omega) (by omega)]
  rw [pB16, writeChunksRaw_getD_lt _ _ _ _
    (by rw [obj_chunks_sum, pB15_length l hlen hmii]; omega) (by omega)]
  rw [pB15, writeRaw_getD_lt _ _ _ _
    (by rw [natToBE4_length, pB14_length l hlen hmii]; omega) (by omega)]
  rw [pB14, writeRaw_getD_lt _ _ _ _ (by rw [pB13_length l hlen]; omega) (by omega)]
  rw [pB13, writeRaw_getD_lt _ _ _ _
    (by rw [natToBE4_length, pB12_length l hlen]; omega) (by omega)]
  rw [pB12, writeRaw_getD_lt _ _ _ _
    (by rw [List.length_singleton, pB11_length l hlen]; omega) (by omega)]
  rw [pB11, writeRaw_getD_lt _ _ _ _
    (by rw [List.length_singleton, pB10_length l hlen]; omega) (by omega)]
  rw [pB10, writeRaw_getD_lt _ _ _ _
    (by rw [natToBE2_length, pB9_length l hlen]; omega) (by omega)]
  rw [pB9, writeRaw_getD_lt _ _ _ _
    (by rw [List.length_singleton, pB8_length l hlen]; omega) (by omega)]
  rw [pB8, writeRaw_getD_lt _ _ _ _
    (by rw [gameMode_pack_length, pB7_length l hlen]; omega) (by omega)]

theorem pB6_getD_zero_mid (l : Level) (i : Nat) (h8 : 8 ≤ i) (h16 : i < 0x10) :
    (pB6 l).getD i 0 = 0 := by
  rw [pB6, writeRaw_getD_lt _ _ _ _
    (by rw [List.length_singleton, pB5_length]; omega) (by omega)]
  rw [pB5, writeRaw_getD_lt _ _ _ _
    (by rw [List.length_singleton, pB4_length]; omega) (by omega)]
  rw [pB4, writeRaw_getD_lt _ _ _ _
    (by rw [List.length_singleton, pB3_length]; omega) (by omega)]
  rw [pB3, writeRaw_getD_lt _ _ _ _
    (by rw [List.length_singleton, pB2_length]; omega) (by omega)]
  rw [pB2, writeRaw_getD_lt _ _ _ _
    (by rw [natToBE2_length, pB1_length]; omega) (by omega)]
  rw [pB1, writeRaw_getD_ge _ _ _ _
    (by rw [natToBE8_length, zeroBuf_length]; omega)
    (by rw [natToBE8_length]; omega)]
  exact getD_zeroBuf i

theorem packBuf_zero_at_8 (l : Level) (hlen : l.level_name.length ≤ 33)
    (hmii : 0x78 + l.mii_data.length ≤ 0x15000) (hobj : l.objects.length ≤ 2680)
    (hsfx : l.sound_effects.length ≤ 322) :
    readBE4 (packBuf l) 0x8 = 0 := by
  rw [readBE4]
  rw [packBuf_getD_low l hlen hmii hobj hsfx 0x8 (by omega) (by omega),
    packBuf_getD_low l hlen hmii hobj hsfx (0x8 + 1) (by omega) (by omega),
    packBuf_getD_low l hlen hmii hobj hsfx (0x8 + 2) (by omega) (by omega),
    packBuf_getD_low l hlen hmii hobj hsfx (0x8 + 3) (by omega) (by omega)]
  rw [pB6_getD_zero_mid l 0x8 (by omega) (by omega),
    pB6_getD_zero_mid l (0x8 + 1) (by omega) (by omega),
    pB6_getD_zero_mid l (0x8 + 2) (by omega) (by omega),
    pB6_getD_zero_mid l (0x8 + 3) (by omega) (by omega)]

theorem packBuf_crc_at_0 (l : Level) (hlen : l.level_name.length ≤ 33)
    (hmii : 0x78 + l.mii_data.length ≤ 0x15000) (hobj : l.objects.length ≤ 2680)
    (hsfx : l.sound_effects.length ≤ 322) :
    readBE4 (packBuf l) 0x0 = crc32 ((packBuf l).drop 0x10) := by
  have hdrop : (packBuf l).drop 0x10 = (pB17 l).drop 0x10 := by
    rw [packBuf]
    exact writeRaw_zero_drop _ _ _ (by rw [natToBE4_length]; omega)
  rw [hdrop, packBuf]
  exact readBE4_of_writeRaw _ _ _
    (by rw [pB17_length l hlen hmii hobj hsfx]; omega) (crc32_lt _)

theorem pB6_getD_date (l : Level) :
    readBE2 (pB6 l) 0x10 = yearWire l.creation_time.year ∧
    (pB6 l).getD 0x12 0 = l.creation_time.month % 256 ∧
    (pB6 l).getD 0x13 0 = l.creation_time.day % 256 ∧
    (pB6 l).getD 0x14 0 = l.creation_time.hour % 256 ∧
    (pB6 l).getD 0x15 0 = l.creation_time.minute % 256 := by
  refine ⟨?_, ?_, ?_, ?_, ?_⟩
  · rw [readBE2]
    rw [pB6, writeRaw_getD_lt _ _ _ _
      (by rw [List.length_singleton, pB5_length]; omega) (by omega),
      writeRaw_getD_lt _ _ _ _
      (by rw [List.length_singleton, pB5_length]; omega) (by omega)]
    rw [pB5, writeRaw_getD_lt _ _ _ _
      (by rw [List.length_singleton, pB4_length]; omega) (by omega),
      writeRaw_getD_lt _ _ _ _
      (by rw [List.length_singleton, pB4_length]; omega) (by omega)]
    rw [pB4, writeRaw_getD_lt _ _ _ _
      (by rw [List.length_singleton, pB3_length]; omega) (by omega),
      writeRaw_getD_lt _ _ _ _
      (by rw [List.length_singleton, pB3_length]; omega) (by omega)]
    rw [pB3, writeRaw_getD_lt _ _ _ _
      (by rw [List.length_singleton, pB2_length]; omega) (by omega),
      writeRaw_getD_lt _ _ _ _
      (by rw [List.length_singleton, pB2_length]; omega) (by omega)]
    rw [show (pB2 l).getD 0x10 0 * 0x100 + (pB2 l).getD (0x10 + 1) 0 =
        readBE2 (pB2 l) 0x10 from rfl]
    rw [pB2]
    exact readBE2_of_writeRaw _ _ _ (by rw [pB1_length]; omega) (yearWire_lt _)
  · rw [pB6, writeRaw_getD_lt _ _ _ _
      (by rw [List.length_singleton, pB5_length]; omega) (by omega)]
    rw [pB5, writeRaw_getD_lt _ _ _ _
      (by rw [List.length_singleton, pB4_length]; omega) (by omega)]
    rw [pB4, writeRaw_getD_lt _ _ _ _
      (by rw [List.length_singleton, pB3_length]; omega) (by omega)]
    rw [pB3, writeRaw_getD_abs _ _ 0x12 0x12 0 (by rw [List.length_singleton, pB2_length]; omega)
      (by rw [List.length_singleton]; omega) (by omega)]
    rfl
  · rw [pB6, writeRaw_getD_lt _ _ _ _
      (by rw [List.length_singleton, pB5_length]; omega) (by omega)]
    rw [pB5, writeRaw_getD_lt _ _ _ _
      (by rw [List.length_singleton, pB4_length]; omega) (by omega)]
    rw [pB4, writeRaw_getD_abs _ _ 0x13 0x13 0 (by rw [List.length_singleton, pB3_length]; omega)
      (by rw [List.length_singleton]; omega) (by omega)]
    rfl
  · rw [pB6, writeRaw_getD_lt _ _ _ _
      (by rw [List.length_singleton, pB5_length]; omega) (by omega)]
    rw [pB5, writeRaw_getD_abs _ _ 0x14 0x14 0 (by rw [List.length_singleton, pB4_length]; omega)
      (by rw [List.length_singleton]; omega) (by omega)]
    rfl
  · rw [pB6, writeRaw_getD_abs _ _ 0x15 0x15 0 (by rw [List.length_singleton, pB5_length]; omega)
      (by rw [List.length_singleton]; omega) (by omega)]
    rfl

theorem packBuf_date (l : Level) (hlen : l.level_name.length ≤ 33)
    (hmii : 0x78 + l.mii_data.length ≤ 0x15000) (hobj : l.objects.length ≤ 2680)
    (hsfx : l.sound_effects.length ≤ 322) :
    readBE2 (packBuf l) 0x10 = yearWire l.creation_time.year ∧
    (packBuf l).getD 0x12 0 = l.creation_time.month % 256 ∧
    (packBuf l).getD 0x13 0 = l.creation_time.day % 256 ∧
    (packBuf l).getD 0x14 0 = l.creation_time.hour % 256 ∧
    (packBuf l).getD 0x15 0 = l.creation_time.minute % 256 := by
  obtain ⟨hy, hm, hd, hh, hmin⟩ := pB6_getD_date l
  refine ⟨?_, ?_, ?_, ?_, ?_⟩
  · rw [readBE2, packBuf_getD_low l hlen hmii hobj hsfx 0x10 (by omega) (by omega),
      packBuf_getD_low l hlen hmii hobj hsfx (0x10 + 1) (by omega) (by omega)]
    exact hy
  · rw [packBuf_getD_low l hlen hmii hobj hsfx 0x12 (by omega) (by omega)]
    exact hm
  · rw [packBuf_getD_low l hlen hmii hobj hsfx 0x13 (by omega) (by omega)]
    exact hd
  · rw [packBuf_getD_low l hlen hmii hobj hsfx 0x14 (by omega) (by omega)]
    exact hh
  · rw [packBuf_getD_low l hlen hmii hobj hsfx 0x15 (by omega) (by omega)]
    exact hmin

theorem packBuf_name_first (l : Level) (hlen : l.level_name.length ≤ 33)
    (hmii : 0x78 + l.mii_data.length ≤ 0x15000) (hobj : l.objects.length ≤ 2680)
    (hsfx : l.sound_effects.length ≤ 322) (c : Nat) (cs : List Nat)
    (hnm : l.level_name = c :: cs) :
    (packBuf l).getD 0x28 0 = c % 256 ∧ (packBuf l).getD 0x29 0 = 0 := by
  have hb : nameBytes (l.level_name ++ List.replicate (33 - l.level_name.length) 0) =
      c % 256 :: 0 :: nameBytes (cs ++ List.replicate (33 - l.level_name.length) 0) := by
    rw [hnm, List.cons_append, nameBytes]
  have hblen : 2 ≤ (nameBytes
      (l.level_name ++ List.replicate (33 - l.level_name.length) 0)).length := by
    rw [hb]
    simp [nameBytes]
  constructor
  · rw [packBuf_getD_name l hlen hmii hobj hsfx 0x28 (by omega) (by omega)]
    rw [pB7, writeRaw_getD_abs _ _ 0x28 0x28 0
      (by rw [nameBytes_length, List.length_append, List.length_replicate, pB6_length]; omega)
      (by omega) (by omega)]
    rw [hb]
    rfl
  · rw [packBuf_getD_name l hlen hmii hobj hsfx 0x29 (by omega) (by omega)]
    rw [pB7, writeRaw_getD_abs _ _ 0x28 0x29 1
      (by rw [nameBytes_length, List.length_append, List.length_replicate, pB6_length]; omega)
      (by omega) (by omega)]
    rw [hb]
    rfl

/-! ## Text codec lemmas -/

theorem utf8DecodeOne_consume (bs : List Nat) (c : Nat) (rest2 : List Nat)
    (h : utf8DecodeOne bs = some (c, rest2)) :
    rest2.length < bs.length ∧ bs.length ≤ rest2.length + 4 := by
  simp only [utf8DecodeOne.eq_def] at h
  repeat' split at h
  all_goals
    first
      | exact Option.noConfusion h
      | (simp only [Option.some.injEq, Prod.mk.injEq] at h
         obtain ⟨h1, h2⟩ := h
         subst_vars
         simp only [List.length_cons]
         omega)

theorem utf8DecodeOne_ascii (b : Nat) (rest : List Nat) (hb : b < 0x80) :
    utf8DecodeOne (b :: rest) = some (b, rest) := by
  rw [utf8DecodeOne.eq_def]
  simp only [if_pos hb]

theorem utf8Decode_ascii (bs : List Nat) (h : ∀ b ∈ bs, b < 0x80) :
    utf8Decode bs = some bs := by
  induction bs with
  | nil => rw [utf8Decode.eq_def]
  | cons b rest ih =>
    have hone := utf8DecodeOne_ascii b rest (h b (List.mem_cons_self _ _))
    have hrest := ih (fun x hx => h x (List.mem_cons_of_mem _ hx))
    rw [utf8Decode.eq_def]
    split
    · rename_i x heq
      exact absurd heq (by simp)
    · rename_i x c rest2 heq
      injection heq with he1 he2
      subst he1
      subst he2
      split
      · rename_i heq2
        rw [hone] at heq2
        exact Option.noConfusion heq2
      · rename_i c2 rest3 heq2
        rw [hone] at heq2
        simp only [Option.some.injEq, Prod.mk.injEq] at heq2
        obtain ⟨hc, hr⟩ := heq2
        subst hc
        subst hr
        rw [hrest]

theorem utf8Decode_length (bs cs : List Nat) (h : utf8Decode bs = some cs) :
    bs.length ≤ 4 * cs.length := by
  induction bs using utf8Decode.induct generalizing cs with
  | case1 =>
    rw [utf8Decode.eq_def] at h
    simp only [Option.some.injEq] at h
    subst h
    simp
  | case2 u us hone =>
    rw [utf8Decode.eq_def] at h
    split at h
    · rename_i x heq
      exact absurd heq (by simp)
    · rename_i x c rest2 heq
      injection heq with he1 he2
      subst he1
      subst he2
      split at h
      · exact Option.noConfusion h
      · rename_i c2 rest3 heq2
        rw [hone] at heq2
        exact Option.noConfusion heq2
  | case3 u us c rest2 hone hnone ih =>
    rw [utf8Decode.eq_def] at h
    split at h
    · rename_i x heq
      exact absurd heq (by simp)
    · rename_i x c2 us2 heq
      injection heq with he1 he2
      subst he1
      subst he2
      split at h
      · exact Option.noConfusion h
      · rename_i c3 rest3 heq2
        rw [hone] at heq2
        simp only [Option.some.injEq, Prod.mk.injEq] at heq2
        obtain ⟨hc, hr⟩ := heq2
        subst hc
        subst hr
        rw [hnone] at h
        exact Option.noConfusion h
  | case4 u us c rest2 hone cs1 heq ih =>
    rw [utf8Decode.eq_def] at h
    split at h
    · rename_i x heqa
      exact absurd heqa (by simp)
    · rename_i x c2 us2 heqa
      injection heqa with he1 he2
      subst he1
      subst he2
      split at h
      · exact Option.noConfusion h
      · rename_i c3 rest3 heq2
        rw [hone] at heq2
        simp only [Option.some.injEq, Prod.mk.injEq] at heq2
        obtain ⟨hc, hr⟩ := heq2
        subst hc
        subst hr
        rw [heq] at h
        simp only [Option.some.injEq] at h
        subst h
        have hb := ih cs1 heq
        have hcns := (utf8DecodeOne_consume _ _ _ hone).2
        simp only [List.length_cons] at hcns ⊢
        omega

theorem ucs2DecodeUnit_ascii (u : Nat) (h : u < 0x80) : ucs2DecodeUnit u = [u] := by
  rw [ucs2DecodeUnit, if_pos h]

theorem ucs2DecodeAll_ascii (us : List Nat) (h : ∀ u ∈ us, u < 0x80) :
    ucs2DecodeAll us = us := by
  induction us with
  | nil => rfl
  | cons u us ih =>
    rw [ucs2DecodeAll, ucs2DecodeUnit_ascii u (h u (List.mem_cons_self _ _)),
      ih (fun x hx => h x (List.mem_cons_of_mem _ hx))]
    rfl

theorem ucs2DecodeBytes_ok_length (us nb : List Nat)
    (h : ucs2DecodeBytes us = .ok nb) : nb.length ≤ 0x21 * 4 := by
  rw [ucs2DecodeBytes] at h
  split at h
  · cases h
    assumption
  · exact Except.noConfusion h

/-! ## Successful decode of a well-formed buffer -/

theorem unpack_ok (b : List Nat)
    (hdate : ymdValid ((readBE2 b 0x10 : Nat) : Int) (b.getD 0x12 0) (b.getD 0x13 0) = true)
    (htime : hmsValid (b.getD 0x14 0) (b.getD 0x15 0) = true)
    (hname : ∀ i, i < 0x21 → readBE2 b (0x28 + 2 * i) < 0x80)
    (hmode : (GameMode.unpack (sliceD b 0x6A 2)).isOk = true)
    (htheme : (CourseTheme.tryFrom (b.getD 0x6D 0)).isOk = true)
    (hscroll : (AutoScroll.tryFrom (b.getD 0x72 0)).isOk = true)
    (hcnt : readBE4 b 0xEC ≤ 2680) :
    ∃ lev, Level.unpack b = some (.ok lev) ∧
      lev.objects.length = readBE4 b 0xEC ∧ lev.sound_effects.length = 300 := by
  obtain ⟨gm, hgm⟩ : ∃ gm, GameMode.unpack (sliceD b 0x6A 2) = .ok gm := by
    cases hx : GameMode.unpack (sliceD b 0x6A 2) with
    | error e => rw [hx] at hmode; exact absurd hmode Bool.false_ne_true
    | ok g => exact ⟨g, rfl⟩
  obtain ⟨theme, hthm⟩ : ∃ t, CourseTheme.tryFrom (b.getD 0x6D 0) = .ok t := by
    cases hx : CourseTheme.tryFrom (b.getD 0x6D 0) with
    | error e => rw [hx] at htheme; exact absurd htheme Bool.false_ne_true
    | ok t => exact ⟨t, rfl⟩
  obtain ⟨scroll, hscr⟩ : ∃ a, AutoScroll.tryFrom (b.getD 0x72 0) = .ok a := by
    cases hx : AutoScroll.tryFrom (b.getD 0x72 0) with
    | error e => rw [hx] at hscroll; exact absurd hscroll Bool.false_ne_true
    | ok a => exact ⟨a, rfl⟩
  have hall : ∀ u ∈ (List.range 0x21).map fun i => readBE2 b (0x28 + 2 * i), u < 0x80 := by
    intro u hu
    rw [List.mem_map] at hu
    obtain ⟨i, hi, rfl⟩ := hu
    exact hname i (List.mem_range.mp hi)
  have hdecode : ucs2DecodeBytes ((List.range 0x21).map fun i => readBE2 b (0x28 + 2 * i)) =
      .ok ((List.range 0x21).map fun i => readBE2 b (0x28 + 2 * i)) := by
    simp only [ucs2DecodeBytes, ucs2DecodeAll_ascii _ hall]
    rw [if_pos (by simp)]
  have hutf8 : utf8Decode (((List.range 0x21).map fun i => readBE2 b (0x28 + 2 * i)) ++
      List.replicate (0x21 * 4 -
        ((List.range 0x21).map fun i => readBE2 b (0x28 + 2 * i)).length) 0) =
      some (((List.range 0x21).map fun i => readBE2 b (0x28 + 2 * i)) ++
        List.replicate (0x21 * 4 -
          ((List.range 0x21).map fun i => readBE2 b (0x28 + 2 * i)).length) 0) := by
    apply utf8Decode_ascii
    intro x hx
    rcases List.mem_append.mp hx with h1 | h2
    · exact hall x h1
    · rw [List.eq_of_mem_replicate h2]
      norm_num
  refine ⟨{ version := readBE8 b 0x0
            creation_time := ⟨((readBE2 b 0x10 : Nat) : Int), b.getD 0x12 0, b.getD 0x13 0,
              b.getD 0x14 0, b.getD 0x15 0, 0⟩
            level_name := ((List.range 0x21).map fun i => readBE2 b (0x28 + 2 * i)) ++
              List.replicate (0x21 * 4 -
                ((List.range 0x21).map fun i => readBE2 b (0x28 + 2 * i)).length) 0
            game_mode := gm
            course_theme := theme
            time_limit := readBE2 b 0x70
            auto_scroll := scroll
            flags := b.getD 0x73 0
            width := readBE4 b 0x74
            mii_data := sliceD b 0x78 0x60
            objects := (List.range (readBE4 b 0xEC)).map fun i =>
              Object.unpack (sliceD b (0xF0 + i * 0x20) 0x20)
            sound_effects := (List.range 300).map fun i =>
              SoundEffect.unpack (sliceD b (0x145F0 + i * 8) 8) }, ?_, ?_, ?_⟩
  · simp only [Level.unpack, if_pos hdate, if_pos htime, hdecode, hutf8, hgm, hthm, hscr,
      if_pos (show 0xF0 + readBE4 b 0xEC * 0x20 ≤ 0x15000 by omega)]
  · simp
  · simp

/-! ## Every successful unpack carries an oversized name -/

theorem unpack_name_length (b : List Nat) (lev : Level)
    (h : Level.unpack b = some (.ok lev)) : 33 ≤ lev.level_name.length := by
  simp only [Level.unpack] at h
  split at h
  · split at h
    · split at h
      · simp at h
      · rename_i nb hnb
        split at h
        · simp at h
        · rename_i name hn
          split at h
          · simp at h
          · split at h
            · simp at h
            · split at h
              · simp at h
              · split at h
                · simp only [Option.some.injEq, Except.ok.injEq] at h
                  subst h
                  have hle := ucs2DecodeBytes_ok_length _ _ hnb
                  have hlen := utf8Decode_length _ _ hn
                  simp only [List.length_append, List.length_replicate] at hlen
                  show 33 ≤ name.length
                  omega
                · exact Option.noConfusion h
    · simp at h
  · simp at h

/-! ## Decode never inspects the checksum bytes -/

theorem unpack_congr (b₁ b₂ : List Nat)
    (hag : ∀ i, i < 0x8 ∨ 0x10 ≤ i → b₁.getD i 0 = b₂.getD i 0) :
    Level.unpack b₁ = Level.unpack b₂ := by
  have e2 : ∀ off : Nat, 0x10 ≤ off → readBE2 b₁ off = readBE2 b₂ off := by
    intro off hoff
    rw [readBE2, readBE2, hag off (Or.inr hoff), hag (off + 1) (Or.inr (by omega))]
  have e4 : ∀ off : Nat, 0x10 ≤ off → readBE4 b₁ off = readBE4 b₂ off := by
    intro off hoff
    rw [readBE4, readBE4, hag off (Or.inr hoff), hag (off + 1) (Or.inr (by omega)),
      hag (off + 2) (Or.inr (by omega)), hag (off + 3) (Or.inr (by omega))]
  have e8 : readBE8 b₁ 0x0 = readBE8 b₂ 0x0 := by
    rw [readBE8, readBE8, readBE4, readBE4, readBE4, readBE4]
    rw [hag 0x0 (Or.inl (by omega)), hag (0x0 + 1) (Or.inl (by omega)),
      hag (0x0 + 2) (Or.inl (by omega)), hag (0x0 + 3) (Or.inl (by omega)),
      hag (0x0 + 4) (Or.inl (by omega)), hag (0x0 + 4 + 1) (Or.inl (by omega)),
      hag (0x0 + 4 + 2) (Or.inl (by omega)), hag (0x0 + 4 + 3) (Or.inl (by omega))]
  have eslice : ∀ off len : Nat, 0x10 ≤ off → sliceD b₁ off len = sliceD b₂ off len := by
    intro off len hoff
    exact List.map_congr_left fun j _ => hag (off + j) (Or.inr (by omega))
  have ename : (fun i => readBE2 b₁ (0x28 + 2 * i)) = fun i => readBE2 b₂ (0x28 + 2 * i) :=
    funext fun i => e2 _ (by omega)
  have eobj : (fun i => Object.unpack (sliceD b₁ (0xF0 + i * 0x20) 0x20)) =
      fun i => Object.unpack (sliceD b₂ (0xF0 + i * 0x20) 0x20) :=
    funext fun i => by rw [eslice _ _ (by omega)]
  have esfx : (fun i => SoundEffect.unpack (sliceD b₁ (0x145F0 + i * 8) 8)) =
      fun i => SoundEffect.unpack (sliceD b₂ (0x145F0 + i * 8) 8) :=
    funext fun i => by rw [eslice _ _ (by omega)]
  simp only [Level.unpack]
  rw [e8, e2 0x10 (by omega), hag 0x12 (Or.inr (by omega)), hag 0x13 (Or.inr (by omega)),
    hag 0x14 (Or.inr (by omega)), hag 0x15 (Or.inr (by omega)), ename,
    eslice 0x6A 2 (by omega), hag 0x6D (Or.inr (by omega)), e2 0x70 (by omega),
    hag 0x72 (Or.inr (by omega)), hag 0x73 (Or.inr (by omega)), e4 0x74 (by omega),
    eslice 0x78 0x60 (by omega), e4 0xEC (by omega), eobj, esfx]

/-! ## Thumbnail codec lemmas -/

theorem resize_pad (l : List Nat) (n : Nat) (h : l.length ≤ n) :
    resize l n = l ++ List.replicate (n - l.length) 0 := by
  rw [resize, if_pos h]

theorem thumbnail_to_bytes_ok (t : Thumbnail) (h : t.jpeg_data.length ≤ 0xC7F8) :
    Thumbnail.to_bytes t =
      .ok ((natToBE4 (crc32 (resize (natToBE4 t.jpeg_data.length ++ t.jpeg_data)
          (0xC800 - 4))) ++ resize (natToBE4 t.jpeg_data.length ++ t.jpeg_data)
          (0xC800 - 4))) := by
  simp only [Thumbnail.to_bytes]
  rw [if_neg (by omega)]

theorem thumbnail_from_bytes_panic (b : List Nat)
    (h : b.length < 8 ∨ b.length < 8 + readBE4 b 4) : Thumbnail.from_bytes b = none := by
  rw [Thumbnail.from_bytes]
  rcases h with h | h
  · rw [if_pos h]
  · by_cases h8 : b.length < 8
    · rw [if_pos h8]
    · rw [if_neg h8, if_neg (by omega)]

theorem thumbnail_body_eq (t : Thumbnail) (h : t.jpeg_data.length ≤ 0xC7F8) :
    resize (natToBE4 t.jpeg_data.length ++ t.jpeg_data) (0xC800 - 4) =
      (natToBE4 t.jpeg_data.length ++ t.jpeg_data) ++
        List.replicate (0xC800 - 4 - (4 + t.jpeg_data.length)) 0 := by
  rw [resize_pad _ _ (by simp [natToBE4]; omega)]
  congr 2
  simp [natToBE4]
  omega

/-- C5: for every Thumbnail with at most 0xC7F8 payload bytes, `to_bytes`
succeeds with a buffer of exactly 0xC800 bytes (checksum, big-endian length,
payload, zero padding) and `from_bytes` recovers the original Thumbnail. -/
theorem thumbnail_roundtrip (t : Thumbnail) (h : t.jpeg_data.length ≤ 0xC7F8) :
    ∃ b, Thumbnail.to_bytes t = .ok b ∧ b.length = 0xC800 ∧
      Thumbnail.from_bytes b = some t := by
  refine ⟨_, thumbnail_to_bytes_ok t h, ?_, ?_⟩
  · rw [thumbnail_body_eq t h]
    simp [natToBE4, List.length_append, List.length_replicate]
    omega
  · rw [thumbnail_body_eq t h]
    have hlen : ((natToBE4 (crc32 ((natToBE4 t.jpeg_data.length ++ t.jpeg_data) ++
        List.replicate (0xC800 - 4 - (4 + t.jpeg_data.length)) 0)) ++
        ((natToBE4 t.jpeg_data.length ++ t.jpeg_data) ++
          List.replicate (0xC800 - 4 - (4 + t.jpeg_data.length)) 0))).length = 0xC800 := by
      simp [natToBE4, List.length_append, List.length_replicate]
      omega
    rw [Thumbnail.from_bytes, if_neg (by omega)]
    have hread : readBE4 (natToBE4 (crc32 ((natToBE4 t.jpeg_data.length ++ t.jpeg_data) ++
        List.replicate (0xC800 - 4 - (4 + t.jpeg_data.length)) 0)) ++
        ((natToBE4 t.jpeg_data.length ++ t.jpeg_data) ++
          List.replicate (0xC800 - 4 - (4 + t.jpeg_data.length)) 0)) 4 =
        t.jpeg_data.length := by
      have hc : (natToBE4 (crc32 ((natToBE4 t.jpeg_data.length ++ t.jpeg_data) ++
          List.replicate (0xC800 - 4 - (4 + t.jpeg_data.length)) 0))).length = 4 := by
        simp [natToBE4]
      have g : ∀ j, j < 4 →
          ((natToBE4 (crc32 ((natToBE4 t.jpeg_data.length ++ t.jpeg_data) ++
            List.replicate (0xC800 - 4 - (4 + t.jpeg_data.length)) 0)) ++
            ((natToBE4 t.jpeg_data.length ++ t.jpeg_data) ++
              List.replicate (0xC800 - 4 - (4 + t.jpeg_data.length)) 0))).getD (4 + j) 0 =
          (natToBE4 t.jpeg_data.length).getD j 0 := by
        intro j hj
        rw [List.getD_append_right _ _ _ _ (by rw [hc]; omega), hc]
        have hx : 4 + j - 4 = j := by omega
        rw [hx, List.getD_append _ _ _ _ (by simp [natToBE4]; omega),
          List.getD_append _ _ _ _ (by simp [natToBE4]; omega)]
      have g0 := g 0 (by omega)
      have g1 := g 1 (by omega)
      have g2 := g 2 (by omega)
      have g3 := g 3 (by omega)
      rw [show (4 : Nat) + 0 = 4 from rfl] at g0
      rw [readBE4, g0, g1, g2, g3,
        show (natToBE4 t.jpeg_data.length).getD 0 0 =
          t.jpeg_data.length / 0x1000000 % 256 from rfl,
        show (natToBE4 t.jpeg_data.length).getD 1 0 =
          t.jpeg_data.length / 0x10000 % 256 from rfl,
        show (natToBE4 t.jpeg_data.length).getD 2 0 =
          t.jpeg_data.length / 0x100 % 256 from rfl,
        show (natToBE4 t.jpeg_data.length).getD 3 0 = t.jpeg_data.length % 256 from rfl]
      omega
    rw [hread, if_pos (by omega)]
    congr 1
    have hsplit : (natToBE4 (crc32 ((natToBE4 t.jpeg_data.length ++ t.jpeg_data) ++
        List.replicate (0xC800 - 4 - (4 + t.jpeg_data.length)) 0)) ++
        ((natToBE4 t.jpeg_data.length ++ t.jpeg_data) ++
          List.replicate (0xC800 - 4 - (4 + t.jpeg_data.length)) 0)) =
        (natToBE4 (crc32 ((natToBE4 t.jpeg_data.length ++ t.jpeg_data) ++
          List.replicate (0xC800 - 4 - (4 + t.jpeg_data.length)) 0)) ++
          natToBE4 t.jpeg_data.length) ++
        (t.jpeg_data ++ List.replicate (0xC800 - 4 - (4 + t.jpeg_data.length)) 0) := by
      simp [List.append_assoc]
    rw [hsplit]
    have h8 : (8 : Nat) = ((natToBE4 (crc32 ((natToBE4 t.jpeg_data.length ++ t.jpeg_data) ++
        List.replicate (0xC800 - 4 - (4 + t.jpeg_data.length)) 0)) ++
        natToBE4 t.jpeg_data.length)).length := by
      simp [natToBE4]
    rw [h8, List.drop_left]
    have hj : t.jpeg_data.length = (t.jpeg_data).length := rfl
    conv_lhs => rw [hj]
    rw [List.take_left]

/-! ## from_bytes / from_tar helper lemmas, and the decoded reference buffer -/

theorem goodLevelBytes_length : goodLevelBytes.length = 0x15000 := by
  rw [goodLevelBytes, List.length_set, List.length_set, List.length_set, List.length_set,
    zeroBuf_length]

theorem from_bytes_wrong_length (b : List Nat) (h : b.length ≠ 0x15000) :
    Level.from_bytes b = some (.error .InvalidData) := by
  rw [Level.from_bytes, if_neg h]

theorem from_bytes_of_unpack (b : List Nat) (lev : Level) (hlen : b.length = 0x15000)
    (h : Level.unpack b = some (.ok lev)) : Level.from_bytes b = some (.ok lev) := by
  rw [Level.from_bytes, if_pos hlen, h]

theorem goodLevel_unpacks : ∃ lev, Level.unpack goodLevelBytes = some (.ok lev) ∧
    lev.objects.length = 0 ∧ lev.sound_effects.length = 300 := by
  obtain ⟨lev, h1, h2, h3⟩ := unpack_ok goodLevelBytes (by decide) (by decide) (by decide)
    (by decide) (by decide) (by decide) (by decide)
  refine ⟨lev, h1, ?_, h3⟩
  rw [h2]
  decide

theorem from_tar_found (entries : List (String × List Nat)) (lv sb pv th : List Nat)
    (h1 : findMember entries "course_data.cdt" = some lv)
    (h2 : findMember entries "course_data_sub.cdt" = some sb)
    (h3 : findMember entries "thumbnail0.tnl" = some pv)
    (h4 : findMember entries "thumbnail1.tnl" = some th) :
    Course.from_tar entries = Course.from_bytes lv sb pv th := by
  unfold Course.from_tar
  rw [h1, h2, h3, h4]

/-! ## Claim theorems -/

/-- C1: the round-trip claim fails. `lvlEmpty` is a valid Level value in the
claim's sense (empty name — at most 32 characters, exactly 300 sound-effect
records, 0 ≤ 2600 objects) and it packs successfully, yet unpacking the packed
buffer cannot return the original value: every successful `Level::unpack`
produces a level name of at least 33 characters, because the name decoder
converts all 33 code units (it does not stop at the zero terminator) and the
empty name has length 0. -/
theorem level_roundtrip_fails :
    lvlEmpty.level_name.length = 0 ∧
    lvlEmpty.sound_effects.length = 300 ∧
    lvlEmpty.objects.length = 0 ∧
    Level.pack lvlEmpty = .ok (packBuf lvlEmpty) ∧
    (∀ lev, Level.unpack (packBuf lvlEmpty) = some (.ok lev) → lev ≠ lvlEmpty) := by
  refine ⟨rfl, by decide, rfl, pack_eq_ok lvlEmpty (by decide), ?_⟩
  intro lev h hEq
  have h33 := unpack_name_length _ _ h
  rw [hEq] at h33
  exact absurd h33 (by decide)

/-- C2: packing is deterministic (the output is the definite buffer
`packBuf l`), but the checksum is NOT stored at offsets 0x08..0x0C: those four
bytes are always zero, and the CRC-32 of bytes 0x10..end is instead written at
offset 0x00 (the source shadows the cursor before seeking to 0x8, so the
checksum overwrites the version field). -/
theorem pack_checksum_misplaced (l : Level) (h : (Level.pack l).isOk = true) :
    Level.pack l = .ok (packBuf l) ∧
    readBE4 (packBuf l) 0x8 = 0 ∧
    readBE4 (packBuf l) 0x0 = crc32 ((packBuf l).drop 0x10) := by
  obtain ⟨hcp, hlen, hmii, hobj, hsfx⟩ := (pack_isOk_iff l).mp h
  exact ⟨pack_eq_ok l ⟨hcp, hlen, hmii, hobj, hsfx⟩,
    packBuf_zero_at_8 l hlen hmii hobj hsfx,
    packBuf_crc_at_0 l hlen hmii hobj hsfx⟩

theorem pack_checksum_misplaced_witness :
    (Level.pack lvlEmpty).isOk = true ∧
    (Level.pack lvlEmpty = .ok (packBuf lvlEmpty) ∧
      readBE4 (packBuf lvlEmpty) 0x8 = 0 ∧
      readBE4 (packBuf lvlEmpty) 0x0 = crc32 ((packBuf lvlEmpty).drop 0x10)) :=
  ⟨(pack_isOk_iff lvlEmpty).mpr (by decide),
    pack_checksum_misplaced lvlEmpty ((pack_isOk_iff lvlEmpty).mpr (by decide))⟩

/-- C3: the name is NOT stored as big-endian code units, and decoding does NOT
stop at the first zero unit. For the one-character name "A" (code unit 0x41)
the packed buffer holds 0x41 at offset 0x28 and 0x00 at 0x29 — the low byte
first, where big-endian storage would put 0x00 at 0x28 and 0x41 at 0x29 — and
every successful unpack yields a name of at least 33 characters (all 33 units
are decoded, so the original name is never recovered). -/
theorem name_stored_low_byte_first :
    Level.pack lvlA = .ok (packBuf lvlA) ∧
    lvlA.level_name = [65] ∧
    (packBuf lvlA).getD 0x28 0 = 65 ∧ (packBuf lvlA).getD 0x29 0 = 0 ∧
    (∀ b lev, Level.unpack b = some (.ok lev) → 33 ≤ lev.level_name.length) := by
  obtain ⟨hn1, hn2⟩ := packBuf_name_first lvlA (by decide) (by decide) (by decide)
    (by decide) 65 [] rfl
  refine ⟨pack_eq_ok lvlA (by decide), rfl, ?_, hn2, unpack_name_length⟩
  rw [hn1]

/-- C4: decoding a buffer of length 86015 or 86017 fails with the structural
`Error::InvalidData`; decoding an 86016-byte buffer whose fields are
well-formed and whose object-count field at 0xEC is 0 yields a level with an
empty object table and exactly 300 sound-effect records. -/
theorem from_bytes_boundary :
    (∀ b : List Nat, b.length = 86015 ∨ b.length = 86017 →
      Level.from_bytes b = some (.error .InvalidData)) ∧
    (∀ b : List Nat, b.length = 0x15000 →
      ymdValid ((readBE2 b 0x10 : Nat) : Int) (b.getD 0x12 0) (b.getD 0x13 0) = true →
      hmsValid (b.getD 0x14 0) (b.getD 0x15 0) = true →
      (∀ i, i < 0x21 → readBE2 b (0x28 + 2 * i) < 0x80) →
      (GameMode.unpack (sliceD b 0x6A 2)).isOk = true →
      (CourseTheme.tryFrom (b.getD 0x6D 0)).isOk = true →
      (AutoScroll.tryFrom (b.getD 0x72 0)).isOk = true →
      readBE4 b 0xEC = 0 →
      ∃ lev, Level.from_bytes b = some (.ok lev) ∧
        lev.objects = [] ∧ lev.sound_effects.length = 300) := by
  constructor
  · intro b hb
    exact from_bytes_wrong_length b (by rcases hb with h | h <;> omega)
  · intro b hlen hdate htime hname hmode htheme hscroll hcnt
    obtain ⟨lev, h1, h2, h3⟩ := unpack_ok b hdate htime hname hmode htheme hscroll
      (by rw [hcnt]; omega)
    refine ⟨lev, from_bytes_of_unpack b lev hlen h1, ?_, h3⟩
    rw [← List.length_eq_zero, h2]
    exact hcnt

theorem from_bytes_boundary_witness :
    Level.from_bytes (List.replicate 86015 0) = some (.error .InvalidData) ∧
    ∃ lev, Level.from_bytes goodLevelBytes = some (.ok lev) ∧
      lev.objects = [] ∧ lev.sound_effects.length = 300 :=
  ⟨from_bytes_boundary.1 (List.replicate 86015 0) (Or.inl (List.length_replicate 86015 0)),
    from_bytes_boundary.2 goodLevelBytes goodLevelBytes_length (by decide) (by decide)
      (by decide) (by decide) (by decide) (by decide) (by decide)⟩

theorem thumbnail_roundtrip_witness :
    ∃ b, Thumbnail.to_bytes ⟨[0xFF, 0xD8]⟩ = .ok b ∧ b.length = 0xC800 ∧
      Thumbnail.from_bytes b = some ⟨[0xFF, 0xD8]⟩ :=
  thumbnail_roundtrip ⟨[0xFF, 0xD8]⟩ (by decide)

/-- C6 counterexample: the 8-byte record is NOT preserved byte-for-byte.
Decoding keeps only the leading 32-bit field, so a record with a nonzero byte
among the trailing four re-encodes differently. -/
theorem soundEffect_roundtrip_cex :
    SoundEffect.pack (SoundEffect.unpack [0, 0, 0, 0, 0, 0, 0, 1]) ≠
      [0, 0, 0, 0, 0, 0, 0, 1] := by decide

/-- C6 (amended): decoding an 8-byte record and re-encoding reproduces the
leading 4 bytes and zero-fills the trailing 4 bytes; the record is preserved
byte-for-byte exactly when its last four bytes are zero. -/
theorem soundEffect_repack (b0 b1 b2 b3 b4 b5 b6 b7 : Nat)
    (h0 : b0 < 256) (h1 : b1 < 256) (h2 : b2 < 256) (h3 : b3 < 256) :
    SoundEffect.pack (SoundEffect.unpack [b0, b1, b2, b3, b4, b5, b6, b7]) =
      [b0, b1, b2, b3, 0, 0, 0, 0] := by
  show natToBE4 (readBE4 [b0, b1, b2, b3, b4, b5, b6, b7] 0) ++ [0, 0, 0, 0] =
    [b0, b1, b2, b3, 0, 0, 0, 0]
  have g0 : ([b0, b1, b2, b3, b4, b5, b6, b7] : List Nat).getD 0 0 = b0 := rfl
  have g1 : ([b0, b1, b2, b3, b4, b5, b6, b7] : List Nat).getD (0 + 1) 0 = b1 := rfl
  have g2 : ([b0, b1, b2, b3, b4, b5, b6, b7] : List Nat).getD (0 + 2) 0 = b2 := rfl
  have g3 : ([b0, b1, b2, b3, b4, b5, b6, b7] : List Nat).getD (0 + 3) 0 = b3 := rfl
  rw [readBE4, g0, g1, g2, g3, natToBE4]
  simp only [List.cons_append, List.nil_append, List.cons.injEq, and_true]
  omega

theorem soundEffect_repack_witness :
    SoundEffect.pack (SoundEffect.unpack [1, 2, 3, 4, 5, 6, 7, 8]) =
      [1, 2, 3, 4, 0, 0, 0, 0] :=
  soundEffect_repack 1 2 3 4 5 6 7 8 (by decide) (by decide) (by decide) (by decide)

/-- C7 counterexample: an archive whose level member is structurally invalid
and an archive whose sub-level member is structurally invalid (the level
member being a fully valid buffer) both fail with the same generic
`Error::InvalidData` — the error does not identify which member failed or the
structural cause. -/
theorem course_invalid_member_generic :
    Course.from_tar [("course_data.cdt", []), ("course_data_sub.cdt", []),
        ("thumbnail0.tnl", []), ("thumbnail1.tnl", [])] = some (.error .InvalidData) ∧
    Course.from_tar [("course_data.cdt", goodLevelBytes), ("course_data_sub.cdt", []),
        ("thumbnail0.tnl", []), ("thumbnail1.tnl", [])] = some (.error .InvalidData) := by
  constructor
  · rw [from_tar_found [("course_data.cdt", []), ("course_data_sub.cdt", []),
        ("thumbnail0.tnl", []), ("thumbnail1.tnl", [])] [] [] [] [] rfl rfl rfl rfl,
      Course.from_bytes, from_bytes_wrong_length [] (by decide)]
  · obtain ⟨lev, hu, _, _⟩ := goodLevel_unpacks
    rw [from_tar_found [("course_data.cdt", goodLevelBytes), ("course_data_sub.cdt", []),
        ("thumbnail0.tnl", []), ("thumbnail1.tnl", [])] goodLevelBytes [] [] []
        rfl rfl rfl rfl,
      Course.from_bytes, from_bytes_of_unpack goodLevelBytes lev goodLevelBytes_length hu,
      from_bytes_wrong_length [] (by decide)]

/-- C7 (amended): a missing member fails with `Error::MissingCourseData`
identifying the specific member, checked in the order level, sub-level,
preview, thumbnail; but a present, structurally invalid member (here: a level
buffer of the wrong length) fails with the generic `Error::InvalidData`, which
identifies neither the member nor the cause. -/
theorem course_from_tar_errors :
    (∀ entries : List (String × List Nat),
      findMember entries "course_data.cdt" = none →
      Course.from_tar entries = some (.error (.MissingCourseData .CourseData))) ∧
    (∀ (entries : List (String × List Nat)) lv,
      findMember entries "course_data.cdt" = some lv →
      findMember entries "course_data_sub.cdt" = none →
      Course.from_tar entries = some (.error (.MissingCourseData .CourseDataSub))) ∧
    (∀ (entries : List (String × List Nat)) lv sb,
      findMember entries "course_data.cdt" = some lv →
      findMember entries "course_data_sub.cdt" = some sb →
      findMember entries "thumbnail0.tnl" = none →
      Course.from_tar entries = some (.error (.MissingCourseData .Thumbnail0))) ∧
    (∀ (entries : List (String × List Nat)) lv sb pv,
      findMember entries "course_data.cdt" = some lv →
      findMember entries "course_data_sub.cdt" = some sb →
      findMember entries "thumbnail0.tnl" = some pv →
      findMember entries "thumbnail1.tnl" = none →
      Course.from_tar entries = some (.error (.MissingCourseData .Thumbnail1))) ∧
    (∀ (entries : List (String × List Nat)) lv sb pv th,
      findMember entries "course_data.cdt" = some lv →
      findMember entries "course_data_sub.cdt" = some sb →
      findMember entries "thumbnail0.tnl" = some pv →
      findMember entries "thumbnail1.tnl" = some th →
      lv.length ≠ 0x15000 →
      Course.from_tar entries = some (.error .InvalidData)) := by
  refine ⟨?_, ?_, ?_, ?_, ?_⟩
  · intro entries h1
    unfold Course.from_tar
    rw [h1]
  · intro entries lv h1 h2
    unfold Course.from_tar
    rw [h1, h2]
  · intro entries lv sb h1 h2 h3
    unfold Course.from_tar
    rw [h1, h2, h3]
  · intro entries lv sb pv h1 h2 h3 h4
    unfold Course.from_tar
    rw [h1, h2, h3, h4]
  · intro entries lv sb pv th h1 h2 h3 h4 hbad
    rw [from_tar_found entries lv sb pv th h1 h2 h3 h4, Course.from_bytes,
      from_bytes_wrong_length lv hbad]

theorem course_from_tar_errors_witness :
    Course.from_tar [] = some (.error (.MissingCourseData .CourseData)) ∧
    Course.from_tar [("course_data.cdt", [])] =
      some (.error (.MissingCourseData .CourseDataSub)) ∧
    Course.from_tar [("course_data.cdt", []), ("course_data_sub.cdt", [])] =
      some (.error (.MissingCourseData .Thumbnail0)) ∧
    Course.from_tar [("course_data.cdt", []), ("course_data_sub.cdt", []),
      ("thumbnail0.tnl", [])] = some (.error (.MissingCourseData .Thumbnail1)) ∧
    Course.from_tar [("course_data.cdt", []), ("course_data_sub.cdt", []),
      ("thumbnail0.tnl", []), ("thumbnail1.tnl", [])] = some (.error .InvalidData) :=
  ⟨course_from_tar_errors.1 [] rfl,
    course_from_tar_errors.2.1 _ [] rfl rfl,
    course_from_tar_errors.2.2.1 _ [] [] rfl rfl rfl,
    course_from_tar_errors.2.2.2.1 _ [] [] [] rfl rfl rfl rfl,
    course_from_tar_errors.2.2.2.2 _ [] [] [] [] rfl rfl rfl rfl (by decide)⟩

/-- C8 counterexample: on a 9-byte buffer whose length word at offset 4 claims
5 payload bytes (needing 13 bytes in total), `Thumbnail::from_bytes` does not
return an error value — it panics (modeled `none`): the function's Rust
signature returns a bare `Thumbnail` with no error path at all. -/
theorem thumbnail_short_panics :
    Thumbnail.from_bytes [0, 0, 0, 0, 0, 0, 0, 5, 1] = none := by decide

/-- C8 (amended): `Thumbnail::from_bytes` has no error result; it panics
(modeled as `none`) exactly when the buffer is shorter than 8 bytes or the
big-endian length at offset 4 runs past the end of the buffer. -/
theorem thumbnail_from_bytes_none_iff (b : List Nat) :
    Thumbnail.from_bytes b = none ↔
      b.length < 8 ∨ b.length < 8 + readBE4 b 4 := by
  rw [Thumbnail.from_bytes]
  by_cases h8 : b.length < 8
  · rw [if_pos h8]
    simp [h8]
  · rw [if_neg h8]
    by_cases hl : 8 + readBE4 b 4 ≤ b.length
    · rw [if_pos hl]
      simp only [reduceCtorEq, false_iff]
      omega
    · rw [if_neg hl]
      simp only [true_iff]
      omega

theorem thumbnail_from_bytes_none_iff_witness :
    Thumbnail.from_bytes [] = none :=
  (thumbnail_from_bytes_none_iff []).mpr (Or.inl (by decide))

/-- C9: Level decode never inspects the stored checksum — two 86016-byte
buffers that agree everywhere except possibly on bytes 0x08..0x10 decode to
identical results, both for `Level::unpack` and for `Level::from_bytes`. -/
theorem checksum_never_inspected (b₁ b₂ : List Nat)
    (hlen₁ : b₁.length = 0x15000) (hlen₂ : b₂.length = 0x15000)
    (hag : ∀ i, i < 0x8 ∨ 0x10 ≤ i → b₁.getD i 0 = b₂.getD i 0) :
    Level.unpack b₁ = Level.unpack b₂ ∧ Level.from_bytes b₁ = Level.from_bytes b₂ := by
  have hu := unpack_congr b₁ b₂ hag
  refine ⟨hu, ?_⟩
  rw [Level.from_bytes, Level.from_bytes, if_pos hlen₁, if_pos hlen₂, hu]

theorem checksum_never_inspected_witness :
    Level.unpack goodLevelBytes = Level.unpack (goodLevelBytes.set 0x8 0xAB) ∧
    Level.from_bytes goodLevelBytes = Level.from_bytes (goodLevelBytes.set 0x8 0xAB) :=
  checksum_never_inspected goodLevelBytes (goodLevelBytes.set 0x8 0xAB)
    goodLevelBytes_length
    (by rw [List.length_set]; exact goodLevelBytes_length)
    (fun i hi => (getD_set_ne goodLevelBytes 0x8 i 0xAB
      (by rcases hi with h | h <;> omega)).symm)

/-- C10: packing never fails because of the creation time — replacing the
creation time of any packable level leaves it packable — and the wire image
wraps: the year is stored at 0x10 as its value reduced modulo 2^16 (the Rust
`as u16` cast, which also wraps negative years), and month, day, hour and
minute are stored as their low 8 bits. -/
theorem pack_time_wrapped (l : Level) (h : (Level.pack l).isOk = true) :
    (∀ t : CreationTime, (Level.pack { l with creation_time := t }).isOk = true) ∧
    readBE2 (packOut l) 0x10 = (l.creation_time.year % 65536).toNat ∧
    (packOut l).getD 0x12 0 = l.creation_time.month % 256 ∧
    (packOut l).getD 0x13 0 = l.creation_time.day % 256 ∧
    (packOut l).getD 0x14 0 = l.creation_time.hour % 256 ∧
    (packOut l).getD 0x15 0 = l.creation_time.minute % 256 := by
  obtain ⟨hcp, hlen, hmii, hobj, hsfx⟩ := (pack_isOk_iff l).mp h
  have hout := packOut_eq l ⟨hcp, hlen, hmii, hobj, hsfx⟩
  obtain ⟨hy, hm, hd, hh, hmin⟩ := packBuf_date l hlen hmii hobj hsfx
  refine ⟨?_, ?_, ?_, ?_, ?_, ?_⟩
  · intro t
    exact (pack_isOk_iff _).mpr ⟨hcp, hlen, hmii, hobj, hsfx⟩
  · rw [hout, hy, yearWire]
  · rw [hout, hm]
  · rw [hout, hd]
  · rw [hout, hh]
  · rw [hout, hmin]

theorem pack_time_wrapped_witness :
    (Level.pack lvlEmpty).isOk = true ∧
    ((∀ t : CreationTime, (Level.pack { lvlEmpty with creation_time := t }).isOk = true) ∧
      readBE2 (packOut lvlEmpty) 0x10 = (lvlEmpty.creation_time.year % 65536).toNat ∧
      (packOut lvlEmpty).getD 0x12 0 = lvlEmpty.creation_time.month % 256 ∧
      (packOut lvlEmpty).getD 0x13 0 = lvlEmpty.creation_time.day % 256 ∧
      (packOut lvlEmpty).getD 0x14 0 = lvlEmpty.creation_time.hour % 256 ∧
      (packOut lvlEmpty).getD 0x15 0 = lvlEmpty.creation_time.minute % 256) :=
  ⟨(pack_isOk_iff lvlEmpty).mpr (by decide),
    pack_time_wrapped lvlEmpty ((pack_isOk_iff lvlEmpty).mpr (by decide))⟩

end MM1
